import Mathlib

/-!
Verification development for the mango-go-plugins repository: a shallow
embedding in Lean 4 of the three source adapters (WeebCentral, Webtoons,
MangaDex) and their shared string-processing helpers, together with
theorems settling the specification claims.

Modelling conventions:
* JavaScript strings are modelled as `List Char` (abbreviated `Str`); the
  Lean `String` type is only used for literals, converted via `.data`.
* A JavaScript `throw new Error(msg)` that escapes an adapter operation is
  modelled as `OpResult.err msg`; a normal return is `OpResult.ok`.
* `undefined`/`null` JSON fields are modelled as `Option` fields; JavaScript
  truthiness of a string value collapses `undefined`, `null` and `""` to the
  empty list, which the definitions test explicitly.
* The injected HTML-parsing collaborator (`mango.utils.parseHTML` plus
  `querySelector` calls) is external to the repository; the values it
  yields to the adapter code (attribute values, text contents) are taken
  as the inputs of the embedded functions.
* HTTP responses are inputs; a paginated operation receives the response
  sequence as a function from request index to response, plus a fuel bound
  (`none` results mean the fuel ran out, i.e. the real loop would still be
  issuing requests).
-/

/-- JavaScript string, modelled as a list of characters. -/
abbrev Str := List Char

/-- Result of an adapter operation: `ok` models a normal return, `err msg`
models a thrown `Error` carrying `msg` that escapes the operation. -/
inductive OpResult (α : Type) where
  | ok : α → OpResult α
  | err : Str → OpResult α
deriving DecidableEq

/-- An HTTP response as seen by the adapters: `status`, `statusText` and a
parsed body `data` (whose shape depends on the endpoint). -/
structure HttpResponse (α : Type) where
  status : Nat
  statusText : Str
  data : α

/-- The `SearchResult` DTO returned by `search`. -/
structure SearchResult where
  title : Str
  cover_url : Str
  identifier : Str
deriving DecidableEq

/-- The `ChapterResult` DTO returned by `getChapters`.  JavaScript object
keys that a given adapter does not set are modelled by the empty-string /
zero defaults. -/
structure ChapterResult where
  identifier : Str
  title : Str
  volume : Str := []
  chapter : Str
  pages : Nat := 0
  language : Str := []
  group_id : Str := []
  published_at : Str
deriving DecidableEq

/-- JavaScript `a || b` on strings: `a` if truthy (non-empty), else `b`. -/
def jsOrElse (a b : Str) : Str :=
  if a = [] then b else a

/-- JavaScript whitespace recognised by `String.trim` / `parseFloat`
(the common characters: space, tab, line feed, carriage return). -/
def isJsWhitespace (c : Char) : Bool :=
  c = ' ' || c = '\t' || c = '\n' || c = '\r'

/-- JavaScript `String.prototype.trim`. -/
def jsTrim (l : Str) : Str :=
  ((l.dropWhile isJsWhitespace).reverse.dropWhile isJsWhitespace).reverse

/-- Decimal digits of a natural number (helper with explicit fuel so that
the definition is structural and kernel-reducible). -/
def natToStrAux : Nat → Nat → Str
  | 0, _ => []
  | _, 0 => [ '0']
  | fuel + 1, n =>
    if n < 10 then [Char.ofNat (48 + n)]
    else natToStrAux fuel (n / 10) ++ [Char.ofNat (48 + n % 10)]

/-- JavaScript `String(n)` for a non-negative integer. -/
def natToStr (n : Nat) : Str := natToStrAux (n + 1) n

/-- JavaScript `String(i)` / template-literal rendering of an integer. -/
def intToStr : Int → Str
  | .ofNat n => natToStr n
  | .negSucc n => '-' :: natToStr (n + 1)

/-- Does `pat` occur as a prefix of some suffix of `l`?  (Substring test,
as used to model `String.prototype.includes`.) -/
def containsSub (pat : Str) : Str → Bool
  | [] => pat.isPrefixOf []
  | l@(_ :: t) => pat.isPrefixOf l || containsSub pat t

/-- Split `l` at the first occurrence of `sep`, returning the part before
and the part after the separator (`none` when `sep` does not occur).
`sep` is assumed non-empty at all call sites. -/
def splitFirst (sep : Str) : Str → Option (Str × Str)
  | [] => if sep = [] then some ([], []) else none
  | l@(c :: t) =>
    if sep.isPrefixOf l then some ([], l.drop sep.length)
    else
      match splitFirst sep t with
      | some (a, b) => some (c :: a, b)
      | none => none

/-- Fuel-driven worker for `jsSplit`. -/
def jsSplitAux (sep : Str) : Nat → Str → List Str
  | 0, l => [l]
  | fuel + 1, l =>
    match splitFirst sep l with
    | some (a, b) => a :: jsSplitAux sep fuel b
    | none => [l]

/-- JavaScript `String.prototype.split` with a non-empty string separator:
non-overlapping leftmost occurrences, keeping empty segments. -/
def jsSplit (sep : Str) (l : Str) : List Str :=
  jsSplitAux sep (l.length + 1) l

/-- Replace the first occurrence of `pat` in `l` by `repl` (JavaScript
`String.prototype.replace` with a plain-string pattern). -/
def jsReplaceFirst (pat repl : Str) (l : Str) : Str :=
  match splitFirst pat l with
  | some (a, b) => a ++ repl ++ b
  | none => l

/-- The global hyphen-to-underscore `.replace` substitution used by the
Webtoons chapter identifier codec. -/
def dashToUnderscore (l : Str) : Str :=
  l.map fun c => if c = '-' then '_' else c

/-- Uppercase hexadecimal digit, as produced by `encodeURIComponent`. -/
def hexDigit (n : Nat) : Char :=
  if n < 10 then Char.ofNat (48 + n) else Char.ofNat (55 + n)

/-- UTF-8 bytes of a code point (for percent-encoding). -/
def utf8Bytes (n : Nat) : List Nat :=
  if n < 128 then [n]
  else if n < 2048 then [192 + n / 64, 128 + n % 64]
  else if n < 65536 then [224 + n / 4096, 128 + (n / 64) % 64, 128 + n % 64]
  else [240 + n / 262144, 128 + (n / 4096) % 64, 128 + (n / 64) % 64, 128 + n % 64]

/-- Characters left unescaped by `encodeURIComponent` (ECMA-262:
letters, digits, and `- _ . ! ~ * ( )` plus the apostrophe). -/
def isUriUnreserved (c : Char) : Bool :=
  c.isAlpha || c.isDigit || c = '-' || c = '_' || c = '.' || c = '!' ||
  c = '~' || c = '*' || c = Char.ofNat 39 || c = '(' || c = ')'

/-- Percent-encoding of one byte. -/
def pctByte (b : Nat) : Str :=
  ['%', hexDigit (b / 16), hexDigit (b % 16)]

/-- JavaScript `encodeURIComponent`. -/
def encodeURIComponent (l : Str) : Str :=
  l.flatMap fun c =>
    if isUriUnreserved c then [c] else (utf8Bytes c.toNat).flatMap pctByte

/-- Exact decimal number `num / 10 ^ exp`: the value model for JavaScript
numbers produced by `parseFloat` on decimal literals. -/
structure DecNum where
  num : Int
  exp : Nat
deriving DecidableEq

/-- Numeric comparison of two exact decimals by cross multiplication. -/
def DecNum.le (a b : DecNum) : Bool :=
  a.num * (10 : Int) ^ b.exp ≤ b.num * (10 : Int) ^ a.exp

/-- Value of a digit run (most significant first). -/
def digitsToNat (l : Str) : Nat :=
  l.foldl (fun a c => a * 10 + (c.toNat - 48)) 0

/-- Assemble mantissa, fractional length and exponent into a `DecNum`. -/
def mkDecNum (m : Int) (fracLen : Nat) : Int → DecNum
  | .ofNat k => ⟨m * (10 : Int) ^ k, fracLen⟩
  | .negSucc k => ⟨m, fracLen + (k + 1)⟩

/-- Exponent part `(e|E)(+|-)?digits` of a decimal literal; yields `0`
when absent or malformed (in which case `parseFloat` stops before it). -/
def parseExponent (l : Str) : Int :=
  match l with
  | 'e' :: r => parseExponentTail r
  | 'E' :: r => parseExponentTail r
  | _ => 0
where
  parseExponentTail (r : Str) : Int :=
    match r with
    | '+' :: d => (digitsToNat (d.takeWhile Char.isDigit) : Int)
    | '-' :: d =>
      if d.takeWhile Char.isDigit = [] then 0
      else -(digitsToNat (d.takeWhile Char.isDigit) : Int)
    | d => (digitsToNat (d.takeWhile Char.isDigit) : Int)

/-- JavaScript `parseFloat` on the decimal grammar
`[ws] [+-] digits [. digits] [(e|E) [+-] digits]` (also `.digits`),
returning `none` for `NaN`.  The `Infinity` production is not modelled
(no adapter input uses it). -/
def jsParseFloat (s : Str) : Option DecNum :=
  let l := s.dropWhile isJsWhitespace
  let sign : Int := match l with
    | '-' :: _ => -1
    | _ => 1
  let l := match l with
    | '+' :: t => t
    | '-' :: t => t
    | _ => l
  let ip := l.takeWhile Char.isDigit
  let l1 := l.dropWhile Char.isDigit
  let fp := match l1 with
    | '.' :: t => t.takeWhile Char.isDigit
    | _ => []
  let l2 := match l1 with
    | '.' :: t => t.dropWhile Char.isDigit
    | _ => l1
  if ip = [] ∧ fp = [] then none
  else
    some (mkDecNum (sign * ((digitsToNat ip) * (10 : Int) ^ fp.length + digitsToNat fp))
      fp.length (parseExponent l2))

/-- `parseFloat(s) || 0`: the sort key used by the chapter comparators
(`NaN`, i.e. parse failure, counts as `0`). -/
def parseFloatOr0 (s : Str) : DecNum :=
  (jsParseFloat s).getD ⟨0, 0⟩

/-- Sort key of a `ChapterResult`: `parseFloat(chapter) || 0`. -/
def chapterKey (c : ChapterResult) : DecNum :=
  parseFloatOr0 c.chapter

/-- The comparator `(a, b) => (parseFloat(a.chapter)||0) - (parseFloat(b.chapter)||0)`
used by the WeebCentral and Webtoons chapter sorts, as a boolean order. -/
def chapterLe (a b : ChapterResult) : Bool :=
  DecNum.le (chapterKey a) (chapterKey b)

/-- Insert `a` into `l`, after every element `b` with `le b a` (so equal
keys keep their relative order). -/
def insLe {α : Type} (le : α → α → Bool) (a : α) : List α → List α
  | [] => [a]
  | b :: bs => if le b a then b :: insLe le a bs else a :: b :: bs

/-- Stable sort by a boolean comparator.  ES2019 `Array.prototype.sort`
is specified to be stable, and for a consistent comparator every stable
sort produces the same list, so insertion sort is a faithful model. -/
def jsStableSort {α : Type} (le : α → α → Bool) (l : List α) : List α :=
  l.foldl (fun acc a => insLe le a acc) []

/-- Options object passed to `constructProxyUrl`.  JavaScript callers pass
an open object; absent fields behave as empty strings (falsy). -/
structure ProxyOptions where
  referer : Str := []
  userAgent : Str := []
  origin : Str := []
deriving DecidableEq

/-- `params.join("&")`. -/
def joinAmp : List Str → Str
  | [] => []
  | [p] => p
  | p :: ps => p ++ '&' :: joinAmp ps

/-- The `origin` of `new URL(src)` for an absolute http(s) URL: scheme plus
authority.  `none` models the `catch` branch (the URL constructor throwing
on a string that is not an absolute URL). -/
def jsUrlOrigin (s : Str) : Option Str :=
  if ( "http://".data).isPrefixOf s then
    some ( "http://".data ++ (s.drop 7).takeWhile fun c => c ≠ '/' && c ≠ '?' && c ≠ '#')
  else if ( "https://".data).isPrefixOf s then
    some ( "https://".data ++ (s.drop 8).takeWhile fun c => c ≠ '/' && c ≠ '?' && c ≠ '#')
  else none

namespace WeebCentral

def BASE_URL : Str := "https://weebcentral.com".data

def PROXY_BASE_URL : Str := "http://localhost:8080/api/proxy/resource".data

/-- WeebCentral `constructProxyUrl`: `url` parameter first, then `referer`,
`user-agent`, `origin`, each appended exactly when the option is truthy. -/
def constructProxyUrl (imageUrl : Str) (options : ProxyOptions) : Str :=
  let params := [ "url=".data ++ encodeURIComponent imageUrl]
  let params := if options.referer ≠ [] then
      params ++ [ "referer=".data ++ encodeURIComponent options.referer] else params
  let params := if options.userAgent ≠ [] then
      params ++ [ "user-agent=".data ++ encodeURIComponent options.userAgent] else params
  let params := if options.origin ≠ [] then
      params ++ [ "origin=".data ++ encodeURIComponent options.origin] else params
  PROXY_BASE_URL ++ ( "?".data) ++ joinAmp params

/-- One anchor from the quick-search HTML fragment, as the injected HTML
parser presents it to the adapter: `href` attribute, the text contents of
the title fallbacks, and the image attributes.  `none` covers both an
absent element and a `null` attribute. -/
structure SearchLink where
  href : Option Str
  flex1Text : Option Str
  linkText : Option Str
  spanDivText : Option Str
  sourceSrcset : Option Str
  sourceSrc : Option Str
  imgSrc : Option Str
  imgDataSrc : Option Str
deriving DecidableEq

/-- Title extraction with its two fallbacks (`.flex-1` text, whole link
text, first `span, div` text). -/
def linkTitle (link : SearchLink) : Str :=
  let title := match link.flex1Text with
    | some t => jsTrim t
    | none => []
  let title := if title = [] then jsTrim (link.linkText.getD []) else title
  if title = [] then
    match link.spanDivText with
    | some t => jsTrim t
    | none => []
  else title

/-- Cover image extraction: `source` `srcset`/`src` (taking the first URL
of a responsive `srcset`), falling back to `img` `src`/`data-src`. -/
def linkImage (link : SearchLink) : Str :=
  let image := jsOrElse (link.sourceSrcset.getD []) (link.sourceSrc.getD [])
  let image := if containsSub ( ",".data) image then
      (jsTrim (image.takeWhile fun c => c ≠ ',')).takeWhile (fun c => c ≠ ' ')
    else image
  if image = [] then jsOrElse (link.imgSrc.getD []) (link.imgDataSrc.getD []) else image

/-- First match of the series-id pattern: the segment of at least one
non-slash character following a `/series/` occurrence. -/
def seriesIdRegex : Str → Option Str
  | [] => none
  | l@(_ :: t) =>
    if ( "/series/".data).isPrefixOf l then
      let g := (l.drop 8).takeWhile fun c => c ≠ '/'
      if g = [] then seriesIdRegex t else some g
    else seriesIdRegex t

/-- Manga id from the anchor `href`: the segment after the first
`/series/` occurrence, with the regex fallback of the source. -/
def linkIdentifier (href : Str) : Str :=
  match jsSplit ( "/series/".data) href with
  | _ :: p1 :: _ =>
    (match jsSplit ( "/".data) p1 with
     | s0 :: _ => s0
     | [] => [])
  | _ =>
    match seriesIdRegex href with
    | some m => m
    | none => []

/-- The search result accumulation loop: entries whose `href` is absent or
whose extracted id or title is empty are skipped without error. -/
def extractSearchResults (links : List SearchLink) : List SearchResult :=
  links.filterMap fun link =>
    match link.href with
    | none => none
    | some href =>
      if href = [] then none
      else
        let title := linkTitle link
        let image := linkImage link
        let idPart := linkIdentifier href
        if idPart ≠ [] ∧ title ≠ [] then
          some { title := jsOrElse title ( "Untitled".data),
                 cover_url := image, identifier := idPart }
        else none

/-- WeebCentral `search`.  The body is the parsed search fragment; `none`
models the blank/empty response body, returned as an empty list. -/
def search (resp : HttpResponse (Option (List SearchLink))) : OpResult (List SearchResult) :=
  if resp.status ≠ 200 then .err ( "Search failed: ".data ++ resp.statusText)
  else
    match resp.data with
    | none => .ok []
    | some links => .ok (extractSearchResults links)

/-- One `div.flex.items-center` chapter row, as presented by the injected
HTML parser: anchor `href`, title span text, `time` element `datetime`. -/
structure ChapterItem where
  anchorHref : Option Str
  titleText : Option Str
  datetime : Option Str
deriving DecidableEq

/-- The leading-zero regex replacement: a maximal non-empty run of leading
zeros is removed, anything else is left unchanged. -/
def replaceLeadingZeros (l : Str) : Str :=
  match l with
  | c :: t => if c = '0' then (c :: t).dropWhile (fun x => x = '0') else l
  | [] => l

/-- WeebCentral `cleanChapterNumber`. -/
def cleanChapterNumber (chapterStr : Str) : Str :=
  let cleaned := replaceLeadingZeros chapterStr
  if cleaned = [] then "0".data else cleaned

/-- The number token at a position whose first character is a digit:
greedy digits, then optionally a dot followed by at least one digit. -/
def numberTokenAt (l : Str) : Str :=
  let ds := l.takeWhile Char.isDigit
  match l.dropWhile Char.isDigit with
  | '.' :: r2 =>
    let fs := r2.takeWhile Char.isDigit
    if fs = [] then ds else ds ++ '.' :: fs
  | _ => ds

/-- First match of the chapter-number pattern (digits with an optional
fractional part) in a title. -/
def firstNumberToken : Str → Option Str
  | [] => none
  | c :: t => if c.isDigit then some (numberTokenAt (c :: t)) else firstNumberToken t

/-- The chapter row accumulation loop of `getChapters`: rows without a
usable anchor or without a `/chapters/` id are skipped. -/
def extractChapters (items : List ChapterItem) : List ChapterResult :=
  items.filterMap fun item =>
    match item.anchorHref with
    | none => none
    | some chapterLink =>
      if chapterLink = [] then none
      else
        let chapterTitle := jsTrim (item.titleText.getD [])
        let chapterNumber := match firstNumberToken chapterTitle with
          | some m => cleanChapterNumber m
          | none => []
        let chapterId := match jsSplit ( "/chapters/".data) chapterLink with
          | _ :: p1 :: _ => p1
          | _ => []
        let publishedAt := item.datetime.getD []
        if chapterId ≠ [] then
          some { identifier := chapterId, title := chapterTitle,
                 chapter := chapterNumber, published_at := publishedAt }
        else none

/-- WeebCentral `getChapters`: single request, parse rows, throw on an
empty result, reverse, then stable sort by numeric chapter. -/
def getChapters (resp : HttpResponse (List ChapterItem)) : OpResult (List ChapterResult) :=
  if resp.status ≠ 200 then .err ( "Failed to fetch chapters: ".data ++ resp.statusText)
  else
    let chapters := extractChapters resp.data
    if chapters = [] then .err ( "No chapters found".data)
    else .ok (jsStableSort chapterLe chapters.reverse)

/-- One `img` element of the chapter image list (its `src` attribute). -/
structure PageImg where
  src : Option Str
deriving DecidableEq

/-- The hard-coded desktop user agent sent with proxied page URLs. -/
def CHROME_UA : Str :=
  "Mozilla/5.0 (Windows NT 10.0; Win64; x64) AppleWebKit/537.36 (KHTML, like Gecko) Chrome/120.0.0.0 Safari/537.36".data

/-- Page accumulation: non-blank `src` values become proxy URLs carrying
referer, user agent and origin derived from the image URL. -/
def extractPages (chapterIdentifier : Str) (imgs : List PageImg) : List Str :=
  imgs.filterMap fun img =>
    match img.src with
    | none => none
    | some src =>
      if src ≠ [] ∧ jsTrim src ≠ [] then
        let pair := match jsUrlOrigin src with
          | some o => (o, o ++ ( "/".data))
          | none => (BASE_URL, BASE_URL ++ ( "/chapters/".data) ++ chapterIdentifier)
        some (constructProxyUrl src
          { referer := pair.2, userAgent := CHROME_UA, origin := pair.1 })
      else none

/-- WeebCentral `getPageURLs`: throws when no page image survives. -/
def getPageURLs (chapterIdentifier : Str) (resp : HttpResponse (List PageImg)) :
    OpResult (List Str) :=
  if resp.status ≠ 200 then .err ( "Failed to fetch page URLs: ".data ++ resp.statusText)
  else
    let pages := extractPages chapterIdentifier resp.data
    if pages = [] then .err ( "No pages found".data)
    else .ok pages

end WeebCentral

namespace Webtoons

def BASE_URL : Str := "https://www.webtoons.com".data

def MOBILE_URL : Str := "https://m.webtoons.com".data

def THUMBNAIL_URL : Str := "https://webtoon-phinf.pstatic.net".data

def PROXY_BASE_URL : Str := "http://localhost:8080/api/proxy/resource".data

/-- Webtoons `constructProxyUrl` (same body as the WeebCentral one). -/
def constructProxyUrl (imageUrl : Str) (options : ProxyOptions) : Str :=
  let params := [ "url=".data ++ encodeURIComponent imageUrl]
  let params := if options.referer ≠ [] then
      params ++ [ "referer=".data ++ encodeURIComponent options.referer] else params
  let params := if options.userAgent ≠ [] then
      params ++ [ "user-agent=".data ++ encodeURIComponent options.userAgent] else params
  let params := if options.origin ≠ [] then
      params ++ [ "origin=".data ++ encodeURIComponent options.origin] else params
  PROXY_BASE_URL ++ ( "?".data) ++ joinAmp params

/-- One entry of the search API `searchedList`. -/
structure SearchItem where
  titleNo : Option Int
  title : Option Str
  thumbnailImage2 : Option Str
  thumbnailMobile : Option Str
deriving DecidableEq

/-- The `result` block of the search API payload. -/
structure SearchResultBlock where
  total : Nat
  searchedList : Option (List SearchItem)
deriving DecidableEq

/-- The search API payload (`response.data`). -/
structure SearchPayload where
  result : Option SearchResultBlock
deriving DecidableEq

/-- Raw cover URL of a search item: thumbnail path resolved against the
thumbnail CDN, absolute URLs passed through, empty when absent. -/
def rawCoverUrl (item : SearchItem) : Str :=
  let thumbnail := jsOrElse (item.thumbnailImage2.getD []) (item.thumbnailMobile.getD [])
  if thumbnail = [] then []
  else if ( "http://".data).isPrefixOf thumbnail ∨ ( "https://".data).isPrefixOf thumbnail then
    thumbnail
  else
    THUMBNAIL_URL ++ (if ( "/".data).isPrefixOf thumbnail then thumbnail else '/' :: thumbnail)

/-- Final cover URL: CDN-hosted covers are proxied and made host-relative
by removing the proxy host prefix; anything else is passed through. -/
def finalCoverUrl (item : SearchItem) : Str :=
  let coverUrl := rawCoverUrl item
  if coverUrl ≠ [] ∧ containsSub ( "webtoon-phinf.pstatic.net".data) coverUrl then
    jsReplaceFirst ( "http://localhost:8080".data) []
      (constructProxyUrl coverUrl { referer := BASE_URL ++ ( "/".data) })
  else coverUrl

/-- Mapping of one kept search item to a `SearchResult`. -/
def searchEntry (item : SearchItem) : SearchResult :=
  { title := jsOrElse (item.title.getD []) ( "Untitled".data),
    cover_url := finalCoverUrl item,
    identifier := intToStr (item.titleNo.getD 0) }

/-- Webtoons `search`.  A `none` body models `response.data` being absent,
which makes the property access throw, caught and wrapped by the source. -/
def search (resp : HttpResponse (Option SearchPayload)) : OpResult (List SearchResult) :=
  if resp.status ≠ 200 then
    .err ( "Failed to search: Search failed: ".data ++ resp.statusText)
  else
    match resp.data with
    | none => .err ( "Failed to search: TypeError".data)
    | some payload =>
      match payload.result with
      | none => .ok []
      | some block =>
        if block.total = 0 then .ok []
        else
          .ok (((block.searchedList.getD []).filter fun item => item.titleNo ≠ none).map
            searchEntry)

/-- One episode of the episodes API. -/
structure Episode where
  episodeNo : Option Int
  episodeTitle : Option Str
  exposureDateMillis : Option Int
  viewerLink : Option Str
deriving DecidableEq

/-- The `result` block of the episodes API payload. -/
structure EpisodesResult where
  episodeList : Option (List Episode)
  nextCursor : Option Int
deriving DecidableEq

/-- The episodes API payload. -/
structure EpisodesPayload where
  success : Bool
  result : Option EpisodesResult
deriving DecidableEq

/-- The chapter identifier encoding produced inside `getChapters`:
`id{seriesId}viewerLink{viewerLink}chNum{episodeNo}` with every hyphen
replaced by an underscore. -/
def encodeChapterId (seriesId viewerLink episodeNoStr : Str) : Str :=
  dashToUnderscore
    (( "id".data) ++ seriesId ++ ( "viewerLink".data) ++ viewerLink ++
      ( "chNum".data) ++ episodeNoStr)

/-- `episode.episodeNo || "0"` rendered as the string used for `chapter`
and for the identifier (`0`, `NaN` and absence all render as `"0"`). -/
def episodeNoStr (e : Episode) : Str :=
  match e.episodeNo with
  | some n => if n = 0 then "0".data else intToStr n
  | none => "0".data

/-- Mapping of one episode to a `ChapterResult`.  `msToIso` models
`new Date(millis).toISOString()` (`none` = invalid date), `nowIso` models
`new Date().toISOString()` at call time. -/
def episodeToChapter (msToIso : Int → Option Str) (nowIso : Str) (seriesId : Str)
    (e : Episode) : ChapterResult :=
  let num := episodeNoStr e
  let title := jsOrElse (e.episodeTitle.getD []) (( "Episode ".data) ++ num)
  let publishedAt := match e.exposureDateMillis with
    | some m => if m ≠ 0 then (msToIso m).getD nowIso else nowIso
    | none => nowIso
  { identifier := encodeChapterId seriesId (e.viewerLink.getD ( "undefined".data)) num,
    title := jsTrim title,
    volume := [],
    chapter := num,
    pages := 0,
    language := "en".data,
    group_id := [],
    published_at := publishedAt }

/-- The cursor pagination loop of `getChapters`: the `i`-th request gets
response `resp i`; the loop repeats while `nextCursor || null` is not
null (so a cursor of `0` also stops).  `none` means the fuel ran out. -/
def fetchEpisodes (resp : Nat → HttpResponse (Option EpisodesPayload)) :
    Nat → Nat → List Episode → Option (OpResult (List Episode))
  | _, 0, _ => none
  | i, fuel + 1, acc =>
    let r := resp i
    if r.status ≠ 200 then
      some (.err (( "Episodes API returned status ".data) ++ natToStr r.status ++
        ( ": ".data) ++ r.statusText))
    else
      match r.data with
      | none => some (.err ( "Episodes API returned no data".data))
      | some payload =>
        if payload.success = false then
          some (.err ( "Episodes API returned success=false".data))
        else
          match payload.result with
          | none => some (.err ( "Invalid API response structure".data))
          | some res =>
            match res.episodeList with
            | none => some (.err ( "Invalid API response structure".data))
            | some eps =>
              match res.nextCursor with
              | none => some (.ok (acc ++ eps))
              | some c =>
                if c = 0 then some (.ok (acc ++ eps))
                else fetchEpisodes resp (i + 1) fuel (acc ++ eps)

/-- Exhaustion signal of one episodes response: the loop cannot continue
past it, because the cursor is null (or falsy `0`) or the payload is
malformed (in which case the loop throws instead of looping). -/
def cursorExhausted (r : HttpResponse (Option EpisodesPayload)) : Bool :=
  match r.data with
  | none => true
  | some payload =>
    match payload.result with
    | none => true
    | some res =>
      match res.nextCursor with
      | none => true
      | some c => decide (c = 0)

/-- Webtoons `getChapters`: paginate, return `[]` on zero episodes, else
map to chapters and stable sort ascending by numeric chapter; every
thrown error is wrapped with a `Failed to get chapters: ` prefix. -/
def getChapters (msToIso : Int → Option Str) (nowIso : Str) (seriesId : Str)
    (resp : Nat → HttpResponse (Option EpisodesPayload)) (fuel : Nat) :
    Option (OpResult (List ChapterResult)) :=
  match fetchEpisodes resp 0 fuel [] with
  | none => none
  | some (.err e) => some (.err (( "Failed to get chapters: ".data) ++ e))
  | some (.ok eps) =>
    if eps = [] then some (.ok [])
    else
      some (.ok (jsStableSort chapterLe
        (eps.map (episodeToChapter msToIso nowIso seriesId))))

end Webtoons

namespace Webtoons

/-- Case-insensitive prefix test (the viewer regexes carry the `i` flag). -/
def ciPrefix : Str → Str → Bool
  | [], _ => true
  | _ :: _, [] => false
  | p :: ps, c :: cs => (p.toLower == c.toLower) && ciPrefix ps cs

/-- A quote character, double or single (the regexes accept either,
independently on each side). -/
def isQuote (c : Char) : Bool :=
  c = Char.ofNat 34 || c = Char.ofNat 39

/-- The `id=["']_imageList["']` pattern anchored at the given position. -/
def idPatternAt (l : Str) : Bool :=
  ciPrefix ( "id=".data) l &&
    match l.drop 3 with
    | q :: r =>
      isQuote q && ciPrefix ( "_imageList".data) r &&
        (match r.drop 10 with
         | q2 :: _ => isQuote q2
         | [] => false)
    | [] => false

/-- Does the id pattern occur anywhere in the (already `>`-free) segment? -/
def hasIdPattern : Str → Bool
  | [] => false
  | l@(_ :: t) => idPatternAt l || hasIdPattern t

/-- Content up to the first case-insensitive occurrence of `pat`
(`none` when `pat` does not occur: the lazy group cannot close). -/
def takeUntilCi (pat : Str) : Str → Option Str
  | [] => none
  | l@(c :: t) =>
    if ciPrefix pat l then some []
    else
      match takeUntilCi pat t with
      | some r => some (c :: r)
      | none => none

/-- Attempt of the `_imageList` div regex anchored at the given position:
a `<div` opener whose attribute region (up to the first `>`) contains the
id pattern, then the lazy content up to the first `</div>`. -/
def tryDivAt (l : Str) : Option Str :=
  if ciPrefix ( "<div".data) l then
    let rest := l.drop 4
    let seg := rest.takeWhile fun c => c ≠ '>'
    if hasIdPattern seg then
      match rest.dropWhile (fun c => c ≠ '>') with
      | _ :: content0 => takeUntilCi ( "</div>".data) content0
      | [] => none
    else none
  else none

/-- Leftmost match of the `_imageList` div regex: the captured content. -/
def findImageListDiv : Str → Option Str
  | [] => none
  | l@(_ :: t) =>
    match tryDivAt l with
    | some content => some content
    | none => findImageListDiv t

/-- The `data-url=["']value["']` tail of the img regex at offset `j`,
returning the captured value and the remainder after the closing quote. -/
def imgAt (j : Nat) (rest : Str) : Option (Str × Str) :=
  let l := rest.drop j
  if ciPrefix ( "data-url=".data) l then
    match l.drop 9 with
    | q :: r =>
      if isQuote q then
        let v := r.takeWhile fun c => !(isQuote c)
        if v ≠ [] then
          match r.drop v.length with
          | q2 :: rem => if isQuote q2 then some (v, rem) else none
          | [] => none
        else none
      else none
    | [] => none
  else none

/-- Greedy choice of the `[^>]+` span after `<img`: the largest offset
`j ≥ 1`, not crossing the first `>`, at which the rest of the pattern
matches. -/
def findImgSplit (rest : Str) : Nat → Option (Str × Str)
  | 0 => none
  | j + 1 =>
    if j + 1 ≤ (rest.takeWhile fun c => c ≠ '>').length then
      match imgAt (j + 1) rest with
      | some p => some p
      | none => findImgSplit rest j
    else findImgSplit rest j

/-- Attempt of the img regex anchored at the given position. -/
def tryImgAt (l : Str) : Option (Str × Str) :=
  if ciPrefix ( "<img".data) l then
    findImgSplit (l.drop 4) (l.drop 4).length
  else none

/-- Global scan of the img regex: leftmost matches, continuing after each
match end (fuel-driven; one character of progress is always made). -/
def scanDataUrls : Nat → Str → List Str
  | 0, _ => []
  | _, [] => []
  | fuel + 1, l@(_ :: t) =>
    match tryImgAt l with
    | some (v, rem) => v :: scanDataUrls fuel rem
    | none => scanDataUrls fuel t

/-- All `data-url` values captured inside the `_imageList` content. -/
def extractDataUrls (content : Str) : List Str :=
  scanDataUrls content.length content

def chNumTok : Str := "chNum".data

/-- Split condition of the decode regex at position `p` of the tail: the
`chNum` separator starts there and a non-empty third group remains. -/
def chNumCond (t : Str) (p : Nat) : Bool :=
  chNumTok.isPrefixOf (t.drop p) && decide (p + 5 < t.length)

/-- Greedy search (from the right) for the split position. -/
def chNumSplitGo (t : Str) : Nat → Option (Str × Str)
  | 0 => none
  | p + 1 =>
    if chNumCond t (p + 1) then some (t.take (p + 1), t.drop (p + 1 + 5))
    else chNumSplitGo t p

/-- Greedy split of `tail` as `group2 ++ chNum ++ group3` with both groups
non-empty and `group2` maximal. -/
def lastChNumSplit (t : Str) : Option (Str × Str) :=
  chNumSplitGo t t.length

/-- The decode regex anchored at the given position: `id`, at least one
digit, `viewerLink`, then the greedy split on `chNum`. -/
def matchChapterIdAt (l : Str) : Option (Str × Str × Str) :=
  if ( "id".data).isPrefixOf l then
    let rest := l.drop 2
    let digits := rest.takeWhile Char.isDigit
    if digits = [] then none
    else
      let rest2 := rest.dropWhile Char.isDigit
      if ( "viewerLink".data).isPrefixOf rest2 then
        match lastChNumSplit (rest2.drop 10) with
        | some (v, n) => some (digits, v, n)
        | none => none
      else none
  else none

/-- `chapterId.match` with the decode regex: leftmost match position, or
`none` when the identifier does not match anywhere. -/
def decodeChapterId : Str → Option (Str × Str × Str)
  | [] => none
  | l@(_ :: t) =>
    match matchChapterIdAt l with
    | some g => some g
    | none => decodeChapterId t

/-- The viewer URL requested for a decoded identifier: absolute links pass
through, relative ones are resolved against the desktop base URL. -/
def viewerFinalUrl (viewerLink : Str) : Str :=
  if ( "http://".data).isPrefixOf viewerLink ∨ ( "https://".data).isPrefixOf viewerLink
  then viewerLink
  else BASE_URL ++ (if ( "/".data).isPrefixOf viewerLink then viewerLink
    else '/' :: viewerLink)

/-- Processing of the viewer response: on a 200 status, locate the
`_imageList` container, collect the `data-url` values, fail when the
container is absent or holds no image, else proxy every URL. -/
def pagesFromViewer (r : HttpResponse Str) : OpResult (List Str) :=
  if r.status = 200 then
    match findImageListDiv r.data with
    | none => .err ( "_imageList div not found in chapter viewer".data)
    | some content =>
      let imageUrls := extractDataUrls content
      if imageUrls = [] then .err ( "No images found in _imageList div".data)
      else
        .ok (imageUrls.map fun u =>
          constructProxyUrl u { referer := BASE_URL ++ ( "/".data) })
  else
    .err (( "Failed to get chapter viewer: ".data) ++ natToStr r.status ++
      ( " ".data) ++ r.statusText)

/-- Webtoons `getPageURLs`.  The second component is the list of viewer
URLs actually requested (empty when the identifier fails to decode: the
error is thrown before any HTTP request). -/
def getPageURLs (chapterId : Str) (resp : Str → HttpResponse Str) :
    OpResult (List Str) × List Str :=
  match decodeChapterId chapterId with
  | none => (.err ( "Invalid chapter ID format".data), [])
  | some (_mangaID, viewerLink, _num) =>
    let finalUrl := viewerFinalUrl viewerLink
    (pagesFromViewer (resp finalUrl), [finalUrl])

end Webtoons

/-- `parts.join(" ")`. -/
def joinSpace : List Str → Str
  | [] => []
  | [p] => p
  | p :: ps => p ++ ' ' :: joinSpace ps

namespace MangaDex

def API_BASE_URL : Str := "https://api.mangadex.org".data

def COVER_ART_BASE_URL : Str := "https://uploads.mangadex.org".data

def MANGA_DEX_BASE_URL : Str := "https://mangadex.org".data

def PROXY_BASE_URL : Str := "http://localhost:8080/api/proxy/resource".data

/-- MangaDex `constructProxyUrl`: unlike the WeebCentral/Webtoons variant
its body only ever appends the `referer` option; `userAgent` and `origin`
fields of the options object are ignored. -/
def constructProxyUrl (imageUrl : Str) (options : ProxyOptions) : Str :=
  let params := [ "url=".data ++ encodeURIComponent imageUrl]
  let params := if options.referer ≠ [] then
      params ++ [ "referer=".data ++ encodeURIComponent options.referer] else params
  PROXY_BASE_URL ++ ( "?".data) ++ joinAmp params

/-- Cover-art attributes (both field spellings are probed). -/
structure RelAttrs where
  fileName : Option Str
  file_name : Option Str
deriving DecidableEq

/-- One relationship of a manga entry. -/
structure Relationship where
  type : Option Str
  id : Option Str
  attributes : Option RelAttrs
deriving DecidableEq

/-- One item of the `included` array. -/
structure IncludedItem where
  type : Option Str
  id : Option Str
  attributes : Option RelAttrs
deriving DecidableEq

/-- The `title` localisation object, as an ordered key/value list (the
key order models `Object.keys` enumeration order). -/
structure MangaAttrs where
  title : Option (List (Str × Str))
deriving DecidableEq

/-- One manga entry of the search response. -/
structure MangaData where
  id : Option Str
  attributes : Option MangaAttrs
  relationships : Option (List Relationship)
deriving DecidableEq

/-- The search response body. -/
structure SearchBody where
  data : Option (List MangaData)
  included : Option (List IncludedItem)
deriving DecidableEq

/-- `attrs?.fileName || attrs?.file_name || ""`. -/
def relFileName (attrs : Option RelAttrs) : Str :=
  jsOrElse
    (match attrs with
     | some a => a.fileName.getD []
     | none => [])
    (match attrs with
     | some a => a.file_name.getD []
     | none => [])

/-- `Map.set`: overwrite an existing key in place, else append. -/
def mapSet : List (Str × Str) → Str → Str → List (Str × Str)
  | [], k, v => [(k, v)]
  | (k0, v0) :: rest, k, v =>
    if k0 = k then (k0, v) :: rest else (k0, v0) :: mapSet rest k v

/-- `Map.get` (`Map.has` is `≠ none`). -/
def mapGet : List (Str × Str) → Str → Option Str
  | [], _ => none
  | (k0, v0) :: rest, k => if k0 = k then some v0 else mapGet rest k

/-- The cover-art lookup map built from the `included` array: only
`cover_art` items with a truthy id and a non-empty file name are added. -/
def buildCoverArtMap (included : List IncludedItem) : List (Str × Str) :=
  included.foldl
    (fun m item =>
      match item.id with
      | some iid =>
        if item.type = some ( "cover_art".data) ∧ iid ≠ [] then
          let fileName := relFileName item.attributes
          if fileName ≠ [] then mapSet m iid fileName else m
        else m
      | none => m)
    []

/-- The relationship scan for a cover file name: first a `cover_art`
relationship with inline attributes, else one whose id is in the lookup
map; a `cover_art` relationship with neither falls through to later
relationships. -/
def findCoverFileName (coverArtMap : List (Str × Str)) : List Relationship → Str
  | [] => []
  | rel :: rest =>
    if rel.type = some ( "cover_art".data) then
      let fn := relFileName rel.attributes
      if fn ≠ [] then fn
      else
        match rel.id with
        | some rid =>
          if rid ≠ [] then
            match mapGet coverArtMap rid with
            | some v => v
            | none => findCoverFileName coverArtMap rest
          else findCoverFileName coverArtMap rest
        | none => findCoverFileName coverArtMap rest
    else findCoverFileName coverArtMap rest

/-- Value of the first key of the title object, or empty. -/
def firstLocaleVal : List (Str × Str) → Str
  | [] => []
  | (_, v) :: _ => v

/-- Key lookup in the title object. -/
def lookupLocale : List (Str × Str) → Str → Option Str
  | [], _ => none
  | (k, v) :: rest, key => if k = key then some v else lookupLocale rest key

/-- Title choice: `en` if present and truthy, else the first key. -/
def mangaTitle (t : List (Str × Str)) : Str :=
  match lookupLocale t ( "en".data) with
  | some v => if v ≠ [] then v else firstLocaleVal t
  | none => firstLocaleVal t

/-- The search filter: `mangaData && attributes && attributes.title && id`
(an empty title object is truthy and passes). -/
def keepManga (m : MangaData) : Bool :=
  (match m.attributes with
   | some a =>
     match a.title with
     | some _ => true
     | none => false
   | none => false) &&
  (match m.id with
   | some i => !(i.isEmpty)
   | none => false)

/-- Mapping of one kept manga entry to a `SearchResult`: resolved title,
proxied host-relative cover URL (when a file name was found), raw id. -/
def searchEntry (coverArtMap : List (Str × Str)) (m : MangaData) : SearchResult :=
  let title := match m.attributes with
    | some a =>
      match a.title with
      | some t => mangaTitle t
      | none => []
    | none => []
  let mid := m.id.getD []
  let coverFileName := findCoverFileName coverArtMap (m.relationships.getD [])
  let coverURL :=
    if coverFileName ≠ [] ∧ mid ≠ [] then
      jsReplaceFirst ( "http://localhost:8080".data) []
        (constructProxyUrl
          (COVER_ART_BASE_URL ++ ( "/covers/".data) ++ mid ++ ( "/".data) ++
            coverFileName ++ ( ".256.jpg".data))
          { referer := MANGA_DEX_BASE_URL ++ ( "/".data) })
    else []
  { title := jsOrElse title ( "Untitled".data),
    cover_url := coverURL,
    identifier := mid }

/-- MangaDex `search`: empty or missing data arrays are a success with an
empty list; otherwise filter and map the entries. -/
def search (resp : HttpResponse (Option SearchBody)) : OpResult (List SearchResult) :=
  if resp.status ≠ 200 then .err ( "Search failed: ".data ++ resp.statusText)
  else
    match resp.data with
    | none => .ok []
    | some body =>
      match body.data with
      | none => .ok []
      | some ds =>
        if ds = [] then .ok []
        else
          let coverArtMap := buildCoverArtMap (body.included.getD [])
          .ok ((ds.filter keepManga).map (searchEntry coverArtMap))

/-- Attributes of one chapter of the feed. -/
structure ChapterAttrs where
  volume : Option Str
  chapter : Option Str
  pages : Option Nat
  translatedLanguage : Option Str
  publishAt : Option Str
  title : Option Str
deriving DecidableEq

/-- One chapter entry of the feed. -/
structure ChapterData where
  id : Str
  attributes : ChapterAttrs
deriving DecidableEq

/-- The feed response body (`data` absent means the loop breaks). -/
structure FeedBody where
  data : Option (List ChapterData)
deriving DecidableEq

/-- MangaDex `formatChapterTitle`: `Vol. x`, `Ch. y` and the title, space
joined, each part present only when truthy. -/
def formatChapterTitle (attrs : ChapterAttrs) : Str :=
  joinSpace
    ((if attrs.volume.getD [] ≠ [] then [( "Vol. ".data) ++ attrs.volume.getD []] else []) ++
     (if attrs.chapter.getD [] ≠ [] then [( "Ch. ".data) ++ attrs.chapter.getD []] else []) ++
     (if attrs.title.getD [] ≠ [] then [attrs.title.getD []] else []))

/-- The `ChapterResult` pushed for a feed chapter, given the already
rendered `published_at` value. -/
def chapterEntryPub (c : ChapterData) (pub : Str) : ChapterResult :=
  { identifier := c.id,
    title := formatChapterTitle c.attributes,
    volume := c.attributes.volume.getD [],
    chapter := c.attributes.chapter.getD [],
    pages := c.attributes.pages.getD 0,
    language := c.attributes.translatedLanguage.getD [],
    group_id := [],
    published_at := pub }

/-- One feed chapter mapped to a `ChapterResult`; `toIso` models
`new Date(s).toISOString()`, whose `none` (invalid date) throws. -/
def chapterEntry (toIso : Str → Option Str) (c : ChapterData) : OpResult ChapterResult :=
  match c.attributes.publishAt with
  | some d =>
    if d ≠ [] then
      match toIso d with
      | some iso => .ok (chapterEntryPub c iso)
      | none => .err ( "Invalid time value".data)
    else .ok (chapterEntryPub c [])
  | none => .ok (chapterEntryPub c [])

/-- The per-page mapping loop: the first date error aborts the call. -/
def mapEntries (toIso : Str → Option Str) : List ChapterData → OpResult (List ChapterResult)
  | [] => .ok []
  | c :: cs =>
    match chapterEntry toIso c with
    | .err e => .err e
    | .ok r =>
      match mapEntries toIso cs with
      | .err e => .err e
      | .ok rs => .ok (r :: rs)

/-- The requested page size of the feed endpoint. -/
def limit : Nat := 500

/-- The offset pagination loop of `getChapters`: the `i`-th request gets
response `resp i`; a missing or empty `data` array breaks, a short page
(fewer than `limit` items) stops after accumulating.  No sorting happens
here or afterwards — the API order is trusted.  `none` = fuel ran out. -/
def fetchFeed (toIso : Str → Option Str) (resp : Nat → HttpResponse (Option FeedBody)) :
    Nat → Nat → List ChapterResult → Option (OpResult (List ChapterResult))
  | _, 0, _ => none
  | i, fuel + 1, acc =>
    let r := resp i
    if r.status ≠ 200 then
      some (.err ( "Failed to fetch chapters: ".data ++ r.statusText))
    else
      match r.data with
      | none => some (.err ( "TypeError".data))
      | some body =>
        match body.data with
        | none => some (.ok acc)
        | some ds =>
          if ds = [] then some (.ok acc)
          else
            match mapEntries toIso ds with
            | .err e => some (.err e)
            | .ok rs =>
              if ds.length < limit then some (.ok (acc ++ rs))
              else fetchFeed toIso resp (i + 1) fuel (acc ++ rs)

/-- Exhaustion signal of one feed response: the loop cannot continue past
it, because the `data` array is missing, empty, or shorter than the
requested `limit`. -/
def pageExhausted (r : HttpResponse (Option FeedBody)) : Bool :=
  match r.data with
  | none => true
  | some body =>
    match body.data with
    | none => true
    | some ds => decide (ds.length < limit)

/-- MangaDex `getChapters`: accumulate the descending feed, then reverse
(the only reordering applied). -/
def getChapters (toIso : Str → Option Str) (resp : Nat → HttpResponse (Option FeedBody))
    (fuel : Nat) : Option (OpResult (List ChapterResult)) :=
  match fetchFeed toIso resp 0 fuel [] with
  | none => none
  | some (.err e) => some (.err e)
  | some (.ok acc) => some (.ok acc.reverse)

/-- The `chapter` object of the at-home server response. -/
structure AtHomeChapter where
  hash : Option Str
  data : Option (List Str)
deriving DecidableEq

/-- The at-home server response body. -/
structure AtHomeBody where
  baseUrl : Option Str
  chapter : Option AtHomeChapter
deriving DecidableEq

/-- MangaDex `getPageURLs`: builds one proxied URL per page file.  An
empty page list yields `ok []` — there is no empty check.  A missing body
or missing `chapter` object makes the property access throw (`TypeError`,
caught and rethrown). -/
def getPageURLs (chapterIdentifier : Str) (resp : HttpResponse (Option AtHomeBody)) :
    OpResult (List Str) :=
  if resp.status ≠ 200 then .err ( "Failed to fetch page URLs: ".data ++ resp.statusText)
  else
    match resp.data with
    | none => .err ( "TypeError".data)
    | some body =>
      match body.chapter with
      | none => .err ( "TypeError".data)
      | some ch =>
        let baseURL := body.baseUrl.getD ( "undefined".data)
        let hash := ch.hash.getD ( "undefined".data)
        let pageFiles := ch.data.getD []
        .ok (pageFiles.map fun pageFile =>
          constructProxyUrl (baseURL ++ ( "/data/".data) ++ hash ++ ( "/".data) ++ pageFile)
            { referer := MANGA_DEX_BASE_URL ++ ( "/".data) })

end MangaDex

theorem DecNum.le_total' (a b : DecNum) : DecNum.le a b = true ∨ DecNum.le b a = true := by
  simp only [DecNum.le, decide_eq_true_eq]
  exact Int.le_total _ _

theorem DecNum.le_trans' {a b c : DecNum} (h1 : DecNum.le a b = true)
    (h2 : DecNum.le b c = true) : DecNum.le a c = true := by
  simp only [DecNum.le, decide_eq_true_eq] at h1 h2 ⊢
  have pa : (0 : Int) ≤ 10 ^ a.exp := pow_nonneg (by norm_num) _
  have pb : (0 : Int) < 10 ^ b.exp := pow_pos (by norm_num) _
  have pc : (0 : Int) ≤ 10 ^ c.exp := pow_nonneg (by norm_num) _
  have h1' := mul_le_mul_of_nonneg_right h1 pc
  have h2' := mul_le_mul_of_nonneg_right h2 pa
  have key : a.num * 10 ^ c.exp * 10 ^ b.exp ≤ c.num * 10 ^ a.exp * 10 ^ b.exp := by
    ring_nf at h1' h2' ⊢
    linarith
  exact le_of_mul_le_mul_right key pb

theorem chapterLe_total (a b : ChapterResult) : chapterLe a b = true ∨ chapterLe b a = true :=
  DecNum.le_total' _ _

theorem chapterLe_trans {a b c : ChapterResult} (h1 : chapterLe a b = true)
    (h2 : chapterLe b c = true) : chapterLe a c = true :=
  DecNum.le_trans' h1 h2

theorem mem_insLe {α : Type} {le : α → α → Bool} {a x : α} :
    ∀ {l : List α}, x ∈ insLe le a l ↔ x = a ∨ x ∈ l := by
  intro l
  induction l with
  | nil => simp [insLe]
  | cons b bs ih =>
    simp only [insLe]
    split <;> simp [List.mem_cons, ih] <;> tauto

theorem pairwise_insLe {α : Type} {le : α → α → Bool}
    (total : ∀ a b, le a b = true ∨ le b a = true)
    (htrans : ∀ a b c, le a b = true → le b c = true → le a c = true)
    (a : α) : ∀ l : List α, l.Pairwise (fun x y => le x y = true) →
    (insLe le a l).Pairwise (fun x y => le x y = true) := by
  intro l
  induction l with
  | nil => intro _; simpa [insLe] using List.pairwise_singleton _ a
  | cons b bs ih =>
    intro hp
    rw [List.pairwise_cons] at hp
    obtain ⟨hb, hbs⟩ := hp
    by_cases hba : le b a = true
    · simp only [insLe, hba, if_pos]
      rw [List.pairwise_cons]
      refine ⟨?_, ih hbs⟩
      intro x hx
      rcases mem_insLe.mp hx with rfl | hx
      · exact hba
      · exact hb x hx
    · have hab : le a b = true := by
        rcases total a b with h | h
        · exact h
        · exact absurd h hba
      simp only [insLe, hba, if_neg, Bool.not_eq_true]
      rw [List.pairwise_cons]
      constructor
      · intro x hx
        rcases List.mem_cons.mp hx with rfl | hx
        · exact hab
        · exact htrans a b x hab (hb x hx)
      · rw [List.pairwise_cons]
        exact ⟨hb, hbs⟩

theorem pairwise_foldl_ins {α : Type} {le : α → α → Bool}
    (total : ∀ a b, le a b = true ∨ le b a = true)
    (htrans : ∀ a b c, le a b = true → le b c = true → le a c = true) :
    ∀ (l acc : List α), acc.Pairwise (fun x y => le x y = true) →
    (l.foldl (fun acc a => insLe le a acc) acc).Pairwise (fun x y => le x y = true) := by
  intro l
  induction l with
  | nil => intro acc h; simpa using h
  | cons a as ih =>
    intro acc h
    exact ih _ (pairwise_insLe total htrans a acc h)

theorem pairwise_jsStableSort {α : Type} {le : α → α → Bool}
    (total : ∀ a b, le a b = true ∨ le b a = true)
    (htrans : ∀ a b c, le a b = true → le b c = true → le a c = true)
    (l : List α) :
    (jsStableSort le l).Pairwise (fun x y => le x y = true) :=
  pairwise_foldl_ins total htrans l [] (List.Pairwise.nil)

theorem isPrefixOf_append_self : ∀ (a b : Str), a.isPrefixOf (a ++ b) = true := by
  intro a b
  induction a with
  | nil => simp [List.isPrefixOf]
  | cons c cs ih => simp [List.isPrefixOf, ih]

theorem takeWhile_append_all {p : Char → Bool} :
    ∀ (a b : Str), (∀ c ∈ a, p c = true) →
    List.takeWhile p (a ++ b) = a ++ List.takeWhile p b := by
  intro a b h
  induction a with
  | nil => simp
  | cons c cs ih =>
    have hc : p c = true := h c (List.mem_cons_self c cs)
    simp only [List.cons_append, List.takeWhile_cons, hc, if_true]
    rw [ih fun x hx => h x (List.mem_cons_of_mem c hx)]

theorem dropWhile_append_all {p : Char → Bool} :
    ∀ (a b : Str), (∀ c ∈ a, p c = true) →
    List.dropWhile p (a ++ b) = List.dropWhile p b := by
  intro a b h
  induction a with
  | nil => simp
  | cons c cs ih =>
    have hc : p c = true := h c (List.mem_cons_self c cs)
    simp only [List.cons_append, List.dropWhile_cons, hc, if_true]
    exact ih fun x hx => h x (List.mem_cons_of_mem c hx)

theorem containsSub_false_drop {pat : Str} :
    ∀ {l : Str}, containsSub pat l = false → ∀ q, pat.isPrefixOf (l.drop q) = false := by
  intro l
  induction l with
  | nil =>
    intro h q
    simpa [containsSub] using h
  | cons c cs ih =>
    intro h q
    simp only [containsSub, Bool.or_eq_false_iff] at h
    cases q with
    | zero => exact h.1
    | succ q => exact ih h.2 q

/-- C8: WeebCentral `cleanChapterNumber` removes every leading zero
character and returns "0" when the whole input was stripped away; in
particular it maps "007" to "7" and the empty string to "0". -/
theorem clean_chapter_number_spec :
    (∀ s : Str, WeebCentral.cleanChapterNumber s =
      (if s.dropWhile (fun c => c = '0') = [] then "0".data
       else s.dropWhile (fun c => c = '0'))) ∧
    WeebCentral.cleanChapterNumber ( "007".data) = "7".data ∧
    WeebCentral.cleanChapterNumber [] = "0".data := by
  refine ⟨?_, by decide, by decide⟩
  intro s
  cases s with
  | nil => rfl
  | cons c t =>
    by_cases hc : c = '0'
    · simp [WeebCentral.cleanChapterNumber, WeebCentral.replaceLeadingZeros, hc]
    · simp [WeebCentral.cleanChapterNumber, WeebCentral.replaceLeadingZeros, hc,
        List.dropWhile_cons]

theorem chNumSplitGo_skip (t : Str) :
    ∀ m k, k ≤ m → (∀ p, k < p → p ≤ m → Webtoons.chNumCond t p = false) →
    Webtoons.chNumSplitGo t m = Webtoons.chNumSplitGo t k := by
  intro m
  induction m with
  | zero =>
    intro k hk _
    have : k = 0 := by omega
    subst this
    rfl
  | succ m ih =>
    intro k hk hcond
    rcases Nat.eq_or_lt_of_le hk with rfl | hlt
    · rfl
    · have hc : Webtoons.chNumCond t (m + 1) = false := hcond (m + 1) (by omega) (le_refl _)
      have step : Webtoons.chNumSplitGo t (m + 1) = Webtoons.chNumSplitGo t m := by
        simp [Webtoons.chNumSplitGo, hc]
      rw [step]
      exact ih k (by omega) fun p h1 h2 => hcond p h1 (by omega)

theorem chNumTok_not_prefix_of_ne {c : Char} (hc : ('c' == c) = false) (rest : Str) :
    Webtoons.chNumTok.isPrefixOf (c :: rest) = false := by
  have h5 : Webtoons.chNumTok = 'c' :: 'h' :: 'N' :: 'u' :: 'm' :: [] := rfl
  rw [h5]
  simp [List.isPrefixOf, hc]

theorem lastChNumSplit_eval (V N : Str) (hV : V ≠ []) (hN : N ≠ [])
    (hNc : containsSub Webtoons.chNumTok N = false) :
    Webtoons.lastChNumSplit (V ++ (Webtoons.chNumTok ++ N)) = some (V, N) := by
  set t := V ++ (Webtoons.chNumTok ++ N) with ht
  have hlen5 : Webtoons.chNumTok.length = 5 := rfl
  have htlen : t.length = V.length + (5 + N.length) := by
    simp [ht, List.length_append, hlen5]
  have hNlen : 1 ≤ N.length := List.length_pos.mpr hN
  have hVlen : 1 ≤ V.length := List.length_pos.mpr hV
  -- every position strictly after V.length fails the condition
  have hfail : ∀ p, V.length < p → p ≤ t.length → Webtoons.chNumCond t p = false := by
    intro p hp1 hp2
    by_cases hbig : V.length + 5 ≤ p
    · -- inside N: use the no-occurrence hypothesis
      have hdrop : t.drop p = N.drop (p - (V.length + 5)) := by
        have : t = (V ++ Webtoons.chNumTok) ++ N := by simp [ht, List.append_assoc]
        rw [this, List.drop_append_eq_append_drop]
        have hl : (V ++ Webtoons.chNumTok).length = V.length + 5 := by
          simp [List.length_append, hlen5]
        have h1 : (V ++ Webtoons.chNumTok).drop p = [] := by
          apply List.drop_eq_nil_of_le
          omega
        rw [h1, hl]
        simp
      have := containsSub_false_drop hNc (p - (V.length + 5))
      simp [Webtoons.chNumCond, hdrop, this]
    · -- straddling the separator: the head character is not 'c'
      have hdrop : t.drop p = (Webtoons.chNumTok ++ N).drop (p - V.length) := by
        rw [ht, List.drop_append_eq_append_drop]
        have h1 : V.drop p = [] := by
          apply List.drop_eq_nil_of_le
          omega
        rw [h1]
        simp
      have hj : p - V.length = 1 ∨ p - V.length = 2 ∨ p - V.length = 3 ∨ p - V.length = 4 := by
        omega
      have hpref : Webtoons.chNumTok.isPrefixOf (t.drop p) = false := by
        rcases hj with hj | hj | hj | hj <;>
          · rw [hdrop, hj]
            exact chNumTok_not_prefix_of_ne (by decide) _
      simp [Webtoons.chNumCond, hpref]
  have hskip : Webtoons.chNumSplitGo t t.length = Webtoons.chNumSplitGo t V.length := by
    apply chNumSplitGo_skip
    · omega
    · intro p h1 h2
      exact hfail p h1 h2
  have hcondV : Webtoons.chNumCond t V.length = true := by
    have hdrop : t.drop V.length = Webtoons.chNumTok ++ N := by
      rw [ht]
      exact List.drop_left' rfl
    simp [Webtoons.chNumCond, hdrop, isPrefixOf_append_self, htlen]
    omega
  obtain ⟨k, hk⟩ : ∃ k, V.length = k + 1 := ⟨V.length - 1, by omega⟩
  have heval : Webtoons.chNumSplitGo t V.length = some (t.take V.length, t.drop (V.length + 5)) := by
    rw [hk]
    have : Webtoons.chNumCond t (k + 1) = true := by
      rw [← hk]
      exact hcondV
    simp [Webtoons.chNumSplitGo, this]
  have htake : t.take V.length = V := by
    rw [ht]
    exact List.take_left' rfl
  have hdropVN : t.drop (V.length + 5) = N := by
    have : t = (V ++ Webtoons.chNumTok) ++ N := by simp [ht, List.append_assoc]
    rw [this]
    apply List.drop_left'
    simp [List.length_append, hlen5]
  unfold Webtoons.lastChNumSplit
  rw [hskip, heval, htake, hdropVN]

theorem dashToUnderscore_append (a b : Str) :
    dashToUnderscore (a ++ b) = dashToUnderscore a ++ dashToUnderscore b :=
  List.map_append _ a b

theorem dashToUnderscore_digits {S : Str} (h : ∀ c ∈ S, c.isDigit = true) :
    dashToUnderscore S = S := by
  unfold dashToUnderscore
  have hc : ∀ c ∈ S, (if c = '-' then '_' else c) = id c := by
    intro c hcm
    by_cases hd : c = '-'
    · subst hd
      exact absurd (h _ hcm) (by decide)
    · simp [hd]
  rw [List.map_congr_left hc, List.map_id]

/-- C2 amended: decoding the encoded identifier recovers the series id
exactly, and the viewer link and episode number with every hyphen
replaced by an underscore (so the originals are recovered exactly only
when they contain no hyphen), provided the series id is a non-empty digit
string, both substituted groups are non-empty, and the substituted
episode number does not contain the separator string `chNum`. -/
theorem webtoons_codec_roundtrip_amended :
    ∀ S V N : Str, S ≠ [] → (∀ c ∈ S, c.isDigit = true) →
      dashToUnderscore V ≠ [] → dashToUnderscore N ≠ [] →
      containsSub Webtoons.chNumTok (dashToUnderscore N) = false →
      Webtoons.decodeChapterId (Webtoons.encodeChapterId S V N) =
        some (S, dashToUnderscore V, dashToUnderscore N) := by
  intro S V N hS hdig hV hN hNc
  have henc : Webtoons.encodeChapterId S V N =
      'i' :: 'd' :: (S ++ (( "viewerLink".data) ++
        (dashToUnderscore V ++ (Webtoons.chNumTok ++ dashToUnderscore N)))) := by
    unfold Webtoons.encodeChapterId
    simp only [dashToUnderscore_append]
    rw [dashToUnderscore_digits hdig]
    have e1 : dashToUnderscore ( "id".data) = "id".data := by decide
    have e2 : dashToUnderscore ( "viewerLink".data) = "viewerLink".data := by decide
    have e3 : dashToUnderscore ( "chNum".data) = "chNum".data := by decide
    rw [e1, e2, e3]
    simp [List.append_assoc, Webtoons.chNumTok]
  have hmatch : Webtoons.matchChapterIdAt (Webtoons.encodeChapterId S V N) =
      some (S, dashToUnderscore V, dashToUnderscore N) := by
    rw [henc]
    unfold Webtoons.matchChapterIdAt
    have hpre : ( "id".data).isPrefixOf
        ('i' :: 'd' :: (S ++ (( "viewerLink".data) ++
          (dashToUnderscore V ++ (Webtoons.chNumTok ++ dashToUnderscore N))))) = true := by
      simp [List.isPrefixOf]
    rw [if_pos hpre]
    have htake : (S ++ (( "viewerLink".data) ++
        (dashToUnderscore V ++ (Webtoons.chNumTok ++ dashToUnderscore N)))).takeWhile
        Char.isDigit = S := by
      rw [takeWhile_append_all _ _ hdig]
      simp [List.takeWhile]
    have hdropw : (S ++ (( "viewerLink".data) ++
        (dashToUnderscore V ++ (Webtoons.chNumTok ++ dashToUnderscore N)))).dropWhile
        Char.isDigit =
        ( "viewerLink".data) ++
          (dashToUnderscore V ++ (Webtoons.chNumTok ++ dashToUnderscore N)) := by
      rw [dropWhile_append_all _ _ hdig]
      simp [List.dropWhile]
    have hdrop10 : (( "viewerLink".data) ++
        (dashToUnderscore V ++ (Webtoons.chNumTok ++ dashToUnderscore N))).drop 10 =
        dashToUnderscore V ++ (Webtoons.chNumTok ++ dashToUnderscore N) :=
      List.drop_left' rfl
    simp only [List.drop_succ_cons, List.drop_zero, htake, hdropw, hdrop10,
      lastChNumSplit_eval _ _ hV hN hNc, isPrefixOf_append_self, if_true, hS]
    simp [hS]
  have hfirst : ∀ l : Str, Webtoons.matchChapterIdAt l =
      some (S, dashToUnderscore V, dashToUnderscore N) → l ≠ [] →
      Webtoons.decodeChapterId l = some (S, dashToUnderscore V, dashToUnderscore N) := by
    intro l hm hne
    cases l with
    | nil => exact absurd rfl hne
    | cons c t => simp [Webtoons.decodeChapterId, hm]
  exact hfirst _ hmatch (by rw [henc]; exact List.cons_ne_nil _ _)


/-- C1 counterexample: a successful MangaDex `getChapters` call whose
single feed page arrives in ascending order returns a list whose two
adjacent entries have descending numeric chapter keys — the adapter only
reverses the feed, it never sorts by chapter number. -/
theorem mangadex_chapters_not_sorted_cex :
    MangaDex.getChapters (fun s => some s) (fun _ => ⟨200, [], some ⟨some [
        ⟨ "a".data, ⟨none, some ( "1".data), none, none, none, none⟩⟩,
        ⟨ "b".data, ⟨none, some ( "2".data), none, none, none, none⟩⟩]⟩⟩) 1 =
      some (.ok [⟨ "b".data, "Ch. 2".data, [], "2".data, 0, [], [], []⟩,
                 ⟨ "a".data, "Ch. 1".data, [], "1".data, 0, [], [], []⟩]) ∧
    chapterLe ⟨ "b".data, "Ch. 2".data, [], "2".data, 0, [], [], []⟩
        ⟨ "a".data, "Ch. 1".data, [], "1".data, 0, [], [], []⟩ = false := by
  decide

/-- C1 amended: chapter lists returned by the WeebCentral and Webtoons
`getChapters` are always sorted ascending by the numeric value of the
`chapter` field (parse failure counting as 0); the MangaDex list is the
reversal of the accumulated feed pages and is sorted ascending exactly
when the feed arrived sorted descending, as the adapter requests but does
not enforce. -/
theorem chapters_sorted_amended :
    (∀ (resp : HttpResponse (List WeebCentral.ChapterItem)) (l : List ChapterResult),
      WeebCentral.getChapters resp = .ok l →
      l.Pairwise fun a b => chapterLe a b = true) ∧
    (∀ (msToIso : Int → Option Str) (nowIso seriesId : Str)
      (resp : Nat → HttpResponse (Option Webtoons.EpisodesPayload)) (fuel : Nat)
      (l : List ChapterResult),
      Webtoons.getChapters msToIso nowIso seriesId resp fuel = some (.ok l) →
      l.Pairwise fun a b => chapterLe a b = true) ∧
    (∀ (toIso : Str → Option Str) (resp : Nat → HttpResponse (Option MangaDex.FeedBody))
      (fuel : Nat) (raw : List ChapterResult),
      MangaDex.fetchFeed toIso resp 0 fuel [] = some (.ok raw) →
      raw.Pairwise (fun a b => chapterLe b a = true) →
      MangaDex.getChapters toIso resp fuel = some (.ok raw.reverse) ∧
      raw.reverse.Pairwise fun a b => chapterLe a b = true) := by
  have htr : ∀ a b c : ChapterResult, chapterLe a b = true → chapterLe b c = true →
      chapterLe a c = true := fun a b c h1 h2 => chapterLe_trans h1 h2
  refine ⟨?_, ?_, ?_⟩
  · intro resp l h
    simp only [WeebCentral.getChapters] at h
    split at h
    · exact absurd h (by simp)
    · split at h
      · exact absurd h (by simp)
      · cases h
        exact pairwise_jsStableSort chapterLe_total htr _
  · intro msToIso nowIso seriesId resp fuel l h
    cases hfe : Webtoons.fetchEpisodes resp 0 fuel [] with
    | none => simp [Webtoons.getChapters, hfe] at h
    | some r =>
      cases r with
      | err e => simp [Webtoons.getChapters, hfe] at h
      | ok eps =>
        simp only [Webtoons.getChapters, hfe] at h
        split at h
        · simp only [Option.some.injEq, OpResult.ok.injEq] at h
          subst h
          exact List.Pairwise.nil
        · simp only [Option.some.injEq, OpResult.ok.injEq] at h
          subst h
          exact pairwise_jsStableSort chapterLe_total htr _
  · intro toIso resp fuel raw h hdesc
    refine ⟨?_, List.pairwise_reverse.mpr hdesc⟩
    simp [MangaDex.getChapters, h]

/-- C1 witness: the amended sortedness theorem applied to one concrete
run of each adapter. -/
theorem chapters_sorted_amended_witness :
    ([(⟨ "c1".data, "Chapter 1".data, [], "1".data, 0, [], [], []⟩ : ChapterResult),
      ⟨ "c2".data, "Chapter 2".data, [], "2".data, 0, [], [], []⟩].Pairwise
        fun a b => chapterLe a b = true) ∧
    ([(⟨ "id7viewerLink/achNum1".data, "A".data, [], "1".data, 0, "en".data, [], []⟩ :
        ChapterResult),
      ⟨ "id7viewerLink/bchNum2".data, "B".data, [], "2".data, 0, "en".data, [], []⟩].Pairwise
        fun a b => chapterLe a b = true) ∧
    (MangaDex.getChapters (fun s => some s) (fun _ => ⟨200, [], some ⟨some [
        ⟨ "b".data, ⟨none, some ( "2".data), none, none, none, none⟩⟩,
        ⟨ "a".data, ⟨none, some ( "1".data), none, none, none, none⟩⟩]⟩⟩) 1 =
      some (.ok ([(⟨ "b".data, "Ch. 2".data, [], "2".data, 0, [], [], []⟩ : ChapterResult),
                  ⟨ "a".data, "Ch. 1".data, [], "1".data, 0, [], [], []⟩].reverse)) ∧
      ([(⟨ "b".data, "Ch. 2".data, [], "2".data, 0, [], [], []⟩ : ChapterResult),
        ⟨ "a".data, "Ch. 1".data, [], "1".data, 0, [], [], []⟩].reverse.Pairwise
          fun a b => chapterLe a b = true)) :=
  ⟨chapters_sorted_amended.1
      ⟨200, [], [⟨some ( "/chapters/c2".data), some ( "Chapter 2".data), none⟩,
                 ⟨some ( "/chapters/c1".data), some ( "Chapter 1".data), none⟩]⟩
      _ (by decide),
   chapters_sorted_amended.2.1 (fun _ => none) [] ( "7".data)
      (fun _ => ⟨200, [], some ⟨true, some ⟨some [
        ⟨some 2, some ( "B".data), none, some ( "/b".data)⟩,
        ⟨some 1, some ( "A".data), none, some ( "/a".data)⟩], none⟩⟩⟩) 1
      _ (by decide),
   chapters_sorted_amended.2.2 (fun s => some s)
      (fun _ => ⟨200, [], some ⟨some [
        ⟨ "b".data, ⟨none, some ( "2".data), none, none, none, none⟩⟩,
        ⟨ "a".data, ⟨none, some ( "1".data), none, none, none, none⟩⟩]⟩⟩) 1
      _ (by decide) (by decide)⟩

/-- C3 counterexample: MangaDex `getPageURLs`, on a 200 response whose
at-home `chapter.data` array is empty, returns the empty list as success
— there is no no-pages-found check in that adapter. -/
theorem mangadex_empty_pages_ok_cex :
    MangaDex.getPageURLs ( "c1".data)
      ⟨200, [], some ⟨some ( "https://s2.md".data), some ⟨some ( "h".data), some []⟩⟩⟩ =
      .ok [] := by
  decide

/-- C3 amended: WeebCentral and Webtoons `getPageURLs` never return an
empty list as success (zero resolved pages fail with their
no-pages-found errors), while MangaDex returns `ok []` for an empty
at-home page list. -/
theorem pageurls_empty_policy_amended :
    (∀ (chapterId : Str) (resp : HttpResponse (List WeebCentral.PageImg))
      (l : List Str), WeebCentral.getPageURLs chapterId resp = .ok l → l ≠ []) ∧
    (∀ (chapterId : Str) (resp : Str → HttpResponse Str) (l : List Str),
      (Webtoons.getPageURLs chapterId resp).1 = .ok l → l ≠ []) ∧
    (∀ (chapterId : Str) (resp : HttpResponse (Option MangaDex.AtHomeBody))
      (body : MangaDex.AtHomeBody) (ch : MangaDex.AtHomeChapter),
      resp.status = 200 → resp.data = some body → body.chapter = some ch →
      ch.data = some [] → MangaDex.getPageURLs chapterId resp = .ok []) := by
  refine ⟨?_, ?_, ?_⟩
  · intro chapterId resp l h
    simp only [WeebCentral.getPageURLs] at h
    split at h
    · exact absurd h (by simp)
    · split at h
      · exact absurd h (by simp)
      · rename_i hne
        cases h
        exact hne
  · intro chapterId resp l h
    cases hdec : Webtoons.decodeChapterId chapterId with
    | none => simp [Webtoons.getPageURLs, hdec] at h
    | some g =>
      obtain ⟨m, v, n⟩ := g
      simp only [Webtoons.getPageURLs, hdec] at h
      simp only [Webtoons.pagesFromViewer] at h
      split at h
      · split at h
        · exact absurd h (by simp)
        · split at h
          · exact absurd h (by simp)
          · rename_i hne
            simp only [OpResult.ok.injEq] at h
            subst h
            simp only [ne_eq, List.map_eq_nil_iff]
            exact hne
      · exact absurd h (by simp)
  · intro chapterId resp body ch h200 hdata hch hdd
    simp [MangaDex.getPageURLs, h200, hdata, hch, hdd]

set_option maxRecDepth 4000 in
/-- C3 witness: the amended empty-pages policy applied to one concrete
call of each adapter. -/
theorem pageurls_empty_policy_amended_witness :
    WeebCentral.extractPages ( "c".data) [⟨some ( "http://h/x.png".data)⟩] ≠ [] ∧
    [Webtoons.constructProxyUrl ( "u1".data)
      { referer := Webtoons.BASE_URL ++ ( "/".data) }] ≠ ([] : List Str) ∧
    MangaDex.getPageURLs ( "c2".data)
      ⟨200, [], some ⟨some ( "https://host".data), some ⟨some ( "hh".data), some []⟩⟩⟩ =
      .ok [] :=
  ⟨pageurls_empty_policy_amended.1 ( "c".data) ⟨200, [], [⟨some ( "http://h/x.png".data)⟩]⟩
      _ (by decide),
   pageurls_empty_policy_amended.2.1 ( "id1viewerLink/achNum2".data)
      (fun _ => ⟨200, [],
        ( "<div id=\x22_imageList\x22><img src=x data-url=\x22u1\x22></div>".data)⟩)
      _ (by decide),
   pageurls_empty_policy_amended.2.2 ( "c2".data)
      ⟨200, [], some ⟨some ( "https://host".data), some ⟨some ( "hh".data), some []⟩⟩⟩
      _ _ rfl rfl rfl rfl⟩

/-- C4: the empty-chapter policy differs by source exactly as claimed:
WeebCentral `getChapters` fails with "No chapters found" when zero
chapters are parsed from a success response, while Webtoons and MangaDex
return an empty list as success when their loops accumulate nothing. -/
theorem getchapters_empty_policy :
    (∀ resp : HttpResponse (List WeebCentral.ChapterItem),
      resp.status = 200 → WeebCentral.extractChapters resp.data = [] →
      WeebCentral.getChapters resp = .err ( "No chapters found".data)) ∧
    (∀ (msToIso : Int → Option Str) (nowIso seriesId : Str)
      (resp : Nat → HttpResponse (Option Webtoons.EpisodesPayload)) (fuel : Nat),
      Webtoons.fetchEpisodes resp 0 fuel [] = some (.ok []) →
      Webtoons.getChapters msToIso nowIso seriesId resp fuel = some (.ok [])) ∧
    (∀ (toIso : Str → Option Str) (resp : Nat → HttpResponse (Option MangaDex.FeedBody))
      (fuel : Nat),
      MangaDex.fetchFeed toIso resp 0 fuel [] = some (.ok []) →
      MangaDex.getChapters toIso resp fuel = some (.ok [])) := by
  refine ⟨?_, ?_, ?_⟩
  · intro resp h200 hempty
    simp [WeebCentral.getChapters, h200, hempty]
  · intro msToIso nowIso seriesId resp fuel h
    simp [Webtoons.getChapters, h]
  · intro toIso resp fuel h
    simp [MangaDex.getChapters, h]

/-- C4 witness: the empty-chapter policy at one concrete empty response
per adapter. -/
theorem getchapters_empty_policy_witness :
    WeebCentral.getChapters ⟨200, [], []⟩ = .err ( "No chapters found".data) ∧
    Webtoons.getChapters (fun _ => none) [] ( "9".data)
      (fun _ => ⟨200, [], some ⟨true, some ⟨some [], none⟩⟩⟩) 1 = some (.ok []) ∧
    MangaDex.getChapters (fun _ => none) (fun _ => ⟨200, [], some ⟨some []⟩⟩) 1 =
      some (.ok []) :=
  ⟨getchapters_empty_policy.1 ⟨200, [], []⟩ rfl (by decide),
   getchapters_empty_policy.2.1 (fun _ => none) [] ( "9".data)
      (fun _ => ⟨200, [], some ⟨true, some ⟨some [], none⟩⟩⟩) 1 (by decide),
   getchapters_empty_policy.2.2 (fun _ => none) (fun _ => ⟨200, [], some ⟨some []⟩⟩) 1
      (by decide)⟩

/-- C9: on a chapter identifier that does not match the decode pattern,
Webtoons `getPageURLs` fails with "Invalid chapter ID format" and its
request log is empty — no HTTP request is issued before the validation
error. -/
theorem webtoons_invalid_id_no_request :
    ∀ (chapterId : Str) (resp : Str → HttpResponse Str),
      Webtoons.decodeChapterId chapterId = none →
      Webtoons.getPageURLs chapterId resp =
        (.err ( "Invalid chapter ID format".data), []) := by
  intro chapterId resp h
  simp [Webtoons.getPageURLs, h]

/-- C9 witness: the validation-before-request theorem at a concrete
malformed identifier. -/
theorem webtoons_invalid_id_no_request_witness :
    Webtoons.getPageURLs ( "not-a-chapter-id".data) (fun _ => ⟨200, [], []⟩) =
      (.err ( "Invalid chapter ID format".data), []) :=
  webtoons_invalid_id_no_request ( "not-a-chapter-id".data) (fun _ => ⟨200, [], []⟩)
    (by decide)

/-- C7: both pagination loops terminate under the exhaustion guarantee:
if some response in the sequence carries a null (or falsy) `nextCursor`
(Webtoons) or a missing, empty or shorter-than-limit `data` array
(MangaDex), then the loop started with enough fuel reaches an actual
outcome rather than running forever. -/
theorem pagination_terminates :
    (∀ (resp : Nat → HttpResponse (Option Webtoons.EpisodesPayload)) (n : Nat),
      ∀ (fuel i : Nat) (acc : List Webtoons.Episode),
      Webtoons.cursorExhausted (resp (i + n)) = true → n < fuel →
      (Webtoons.fetchEpisodes resp i fuel acc).isSome = true) ∧
    (∀ (toIso : Str → Option Str) (resp : Nat → HttpResponse (Option MangaDex.FeedBody))
      (n : Nat), ∀ (fuel i : Nat) (acc : List ChapterResult),
      MangaDex.pageExhausted (resp (i + n)) = true → n < fuel →
      (MangaDex.fetchFeed toIso resp i fuel acc).isSome = true) := by
  constructor
  · intro resp n
    induction n with
    | zero =>
      intro fuel i acc hex hfuel
      obtain ⟨f, rfl⟩ : ∃ f, fuel = f + 1 := ⟨fuel - 1, by omega⟩
      simp only [Nat.add_zero] at hex
      by_cases hst : (resp i).status = 200
      · cases hdata : (resp i).data with
        | none => simp [Webtoons.fetchEpisodes, hst, hdata]
        | some payload =>
          by_cases hsucc : payload.success = false
          · simp [Webtoons.fetchEpisodes, hst, hdata, hsucc]
          · cases hres : payload.result with
            | none => simp [Webtoons.fetchEpisodes, hst, hdata, hsucc, hres]
            | some res =>
              cases heps : res.episodeList with
              | none => simp [Webtoons.fetchEpisodes, hst, hdata, hsucc, hres, heps]
              | some eps =>
                cases hcur : res.nextCursor with
                | none => simp [Webtoons.fetchEpisodes, hst, hdata, hsucc, hres, heps, hcur]
                | some c =>
                  have hc0 : c = 0 := by
                    simp [Webtoons.cursorExhausted, hdata, hres, hcur] at hex
                    exact hex
                  simp [Webtoons.fetchEpisodes, hst, hdata, hsucc, hres, heps, hcur, hc0]
      · simp [Webtoons.fetchEpisodes, hst]
    | succ n ih =>
      intro fuel i acc hex hfuel
      obtain ⟨f, rfl⟩ : ∃ f, fuel = f + 1 := ⟨fuel - 1, by omega⟩
      by_cases hst : (resp i).status = 200
      · cases hdata : (resp i).data with
        | none => simp [Webtoons.fetchEpisodes, hst, hdata]
        | some payload =>
          by_cases hsucc : payload.success = false
          · simp [Webtoons.fetchEpisodes, hst, hdata, hsucc]
          · cases hres : payload.result with
            | none => simp [Webtoons.fetchEpisodes, hst, hdata, hsucc, hres]
            | some res =>
              cases heps : res.episodeList with
              | none => simp [Webtoons.fetchEpisodes, hst, hdata, hsucc, hres, heps]
              | some eps =>
                cases hcur : res.nextCursor with
                | none => simp [Webtoons.fetchEpisodes, hst, hdata, hsucc, hres, heps, hcur]
                | some c =>
                  by_cases hc0 : c = 0
                  · simp [Webtoons.fetchEpisodes, hst, hdata, hsucc, hres, heps, hcur, hc0]
                  · have hstep : Webtoons.fetchEpisodes resp i (f + 1) acc =
                        Webtoons.fetchEpisodes resp (i + 1) f (acc ++ eps) := by
                      simp [Webtoons.fetchEpisodes, hst, hdata, hsucc, hres, heps, hcur, hc0]
                    rw [hstep]
                    have hex' : Webtoons.cursorExhausted (resp (i + 1 + n)) = true := by
                      have harith : i + 1 + n = i + (n + 1) := by omega
                      rw [harith]
                      exact hex
                    exact ih f (i + 1) (acc ++ eps) hex' (by omega)
      · simp [Webtoons.fetchEpisodes, hst]
  · intro toIso resp n
    induction n with
    | zero =>
      intro fuel i acc hex hfuel
      obtain ⟨f, rfl⟩ : ∃ f, fuel = f + 1 := ⟨fuel - 1, by omega⟩
      simp only [Nat.add_zero] at hex
      by_cases hst : (resp i).status = 200
      · cases hdata : (resp i).data with
        | none => simp [MangaDex.fetchFeed, hst, hdata]
        | some body =>
          cases hds : body.data with
          | none => simp [MangaDex.fetchFeed, hst, hdata, hds]
          | some ds =>
            by_cases hnil : ds = []
            · simp [MangaDex.fetchFeed, hst, hdata, hds, hnil]
            · have hshort : ds.length < MangaDex.limit := by
                simp [MangaDex.pageExhausted, hdata, hds] at hex
                exact hex
              cases hmap : MangaDex.mapEntries toIso ds with
              | err e => simp [MangaDex.fetchFeed, hst, hdata, hds, hnil, hmap]
              | ok rs => simp [MangaDex.fetchFeed, hst, hdata, hds, hnil, hmap, hshort]
      · simp [MangaDex.fetchFeed, hst]
    | succ n ih =>
      intro fuel i acc hex hfuel
      obtain ⟨f, rfl⟩ : ∃ f, fuel = f + 1 := ⟨fuel - 1, by omega⟩
      by_cases hst : (resp i).status = 200
      · cases hdata : (resp i).data with
        | none => simp [MangaDex.fetchFeed, hst, hdata]
        | some body =>
          cases hds : body.data with
          | none => simp [MangaDex.fetchFeed, hst, hdata, hds]
          | some ds =>
            by_cases hnil : ds = []
            · simp [MangaDex.fetchFeed, hst, hdata, hds, hnil]
            · cases hmap : MangaDex.mapEntries toIso ds with
              | err e => simp [MangaDex.fetchFeed, hst, hdata, hds, hnil, hmap]
              | ok rs =>
                by_cases hshort : ds.length < MangaDex.limit
                · simp [MangaDex.fetchFeed, hst, hdata, hds, hnil, hmap, hshort]
                · have hstep : MangaDex.fetchFeed toIso resp i (f + 1) acc =
                      MangaDex.fetchFeed toIso resp (i + 1) f (acc ++ rs) := by
                    simp [MangaDex.fetchFeed, hst, hdata, hds, hnil, hmap, hshort]
                  rw [hstep]
                  have hex' : MangaDex.pageExhausted (resp (i + 1 + n)) = true := by
                    have harith : i + 1 + n = i + (n + 1) := by omega
                    rw [harith]
                    exact hex
                  exact ih f (i + 1) (acc ++ rs) hex' (by omega)
      · simp [MangaDex.fetchFeed, hst]

/-- C7 witness: both termination statements at a concrete one-page
response sequence. -/
theorem pagination_terminates_witness :
    (Webtoons.fetchEpisodes
      (fun _ => ⟨200, [], some ⟨true, some ⟨some [], none⟩⟩⟩) 0 1 []).isSome = true ∧
    (MangaDex.fetchFeed (fun _ => none)
      (fun _ => ⟨200, [], some ⟨some []⟩⟩) 0 1 []).isSome = true :=
  ⟨pagination_terminates.1 (fun _ => ⟨200, [], some ⟨true, some ⟨some [], none⟩⟩⟩) 0 1 0 []
      (by decide) (by decide),
   pagination_terminates.2 (fun _ => none) (fun _ => ⟨200, [], some ⟨some []⟩⟩) 0 1 0 []
      (by decide) (by decide)⟩

theorem natToStr_ne_nil (n : Nat) : natToStr n ≠ [] := by
  unfold natToStr
  cases n with
  | zero => simp [natToStrAux]
  | succ m =>
    simp only [natToStrAux]
    split <;> simp

theorem intToStr_ne_nil (i : Int) : intToStr i ≠ [] := by
  cases i with
  | ofNat n => exact natToStr_ne_nil n
  | negSucc n => simp [intToStr]

theorem jsOrElse_ne_nil_right {a b : Str} (h : b ≠ []) : jsOrElse a b ≠ [] := by
  unfold jsOrElse
  split
  · exact h
  · assumption

theorem jsOrElse_ne_nil_left {a : Str} (b : Str) (h : a ≠ []) : jsOrElse a b ≠ [] := by
  simp [jsOrElse, h]

/-- C5 counterexample: a Webtoons search candidate with a `titleNo` but
no title is not dropped — it is returned with the placeholder title
"Untitled". -/
theorem webtoons_search_untitled_cex :
    Webtoons.search ⟨200, [], some ⟨some ⟨1, some [⟨some 5, none, none, none⟩]⟩⟩⟩ =
      .ok [⟨ "Untitled".data, [], "5".data⟩] := by
  decide

/-- C5 amended: every entry returned by any adapter search has a
non-empty identifier and a non-empty title, and identifier-less
candidates are dropped without error; but title-less candidates are only
dropped by WeebCentral (empty extracted title) and MangaDex (absent title
field) — Webtoons, and MangaDex for a present-but-empty title object,
keep them under the placeholder "Untitled". -/
theorem search_drop_policy_amended :
    (∀ (links : List WeebCentral.SearchLink) (r : SearchResult),
      r ∈ WeebCentral.extractSearchResults links → r.identifier ≠ [] ∧ r.title ≠ []) ∧
    (∀ (resp : HttpResponse (Option Webtoons.SearchPayload)) (l : List SearchResult)
      (r : SearchResult), Webtoons.search resp = .ok l → r ∈ l →
      r.identifier ≠ [] ∧ r.title ≠ []) ∧
    (∀ (resp : HttpResponse (Option MangaDex.SearchBody)) (l : List SearchResult)
      (r : SearchResult), MangaDex.search resp = .ok l → r ∈ l →
      r.identifier ≠ [] ∧ r.title ≠ []) := by
  refine ⟨?_, ?_, ?_⟩
  · intro links r hr
    simp only [WeebCentral.extractSearchResults] at hr
    obtain ⟨link, _hmem, hf⟩ := List.mem_filterMap.mp hr
    cases hhref : link.href with
    | none => rw [hhref] at hf; simp at hf
    | some href =>
      rw [hhref] at hf
      by_cases h1 : href = []
      · simp [h1] at hf
      · simp only [h1, if_false, if_neg] at hf
        split at hf
        · rename_i hguard
          simp only [Option.some.injEq] at hf
          subst hf
          exact ⟨hguard.1, jsOrElse_ne_nil_left _ hguard.2⟩
        · simp at hf
  · intro resp l r h hr
    by_cases hst : resp.status = 200
    · cases hdata : resp.data with
      | none => simp [Webtoons.search, hst, hdata] at h
      | some payload =>
        cases hres : payload.result with
        | none =>
          simp [Webtoons.search, hst, hdata, hres] at h
          subst h
          simp at hr
        | some block =>
          by_cases htot : block.total = 0
          · simp [Webtoons.search, hst, hdata, hres, htot] at h
            subst h
            simp at hr
          · simp [Webtoons.search, hst, hdata, hres, htot] at h
            subst h
            obtain ⟨item, _hitem, hentry⟩ := List.mem_map.mp hr
            subst hentry
            refine ⟨intToStr_ne_nil _, jsOrElse_ne_nil_right (by decide)⟩
    · simp [Webtoons.search, hst] at h
  · intro resp l r h hr
    by_cases hst : resp.status = 200
    case neg => simp [MangaDex.search, hst] at h
    cases hdata : resp.data with
    | none =>
      simp [MangaDex.search, hst, hdata] at h
      subst h
      simp at hr
    | some body =>
      cases hds : body.data with
      | none =>
        simp [MangaDex.search, hst, hdata, hds] at h
        subst h
        simp at hr
      | some ds =>
        by_cases hnil : ds = []
        · simp [MangaDex.search, hst, hdata, hds, hnil] at h
          subst h
          simp at hr
        · simp [MangaDex.search, hst, hdata, hds, hnil] at h
          subst h
          obtain ⟨m, hmem, hentry⟩ := List.mem_map.mp hr
          obtain ⟨_hm, hkeep⟩ := List.mem_filter.mp hmem
          subst hentry
          constructor
          · simp only [MangaDex.searchEntry]
            simp only [MangaDex.keepManga, Bool.and_eq_true] at hkeep
            obtain ⟨_ht, hid⟩ := hkeep
            cases hmid : m.id with
            | none => rw [hmid] at hid; simp at hid
            | some i =>
              rw [hmid] at hid
              simp only [Bool.not_eq_true] at hid
              simp only [hmid, Option.getD_some]
              intro hz
              subst hz
              simp at hid
          · exact jsOrElse_ne_nil_right (by decide)

/-- C5 witness: the non-empty identifier and title guarantee at one
concrete search result per adapter. -/
theorem search_drop_policy_amended_witness :
    ((⟨ "Foo".data, [], "abc-1".data⟩ : SearchResult).identifier ≠ [] ∧
      (⟨ "Foo".data, [], "abc-1".data⟩ : SearchResult).title ≠ []) ∧
    ((⟨ "T".data, [], "6795".data⟩ : SearchResult).identifier ≠ [] ∧
      (⟨ "T".data, [], "6795".data⟩ : SearchResult).title ≠ []) ∧
    ((⟨ "T".data, [], "m1".data⟩ : SearchResult).identifier ≠ [] ∧
      (⟨ "T".data, [], "m1".data⟩ : SearchResult).title ≠ []) :=
  ⟨search_drop_policy_amended.1
      [⟨some ( "/series/abc-1/".data), some ( "Foo".data), none, none, none, none, none, none⟩]
      _ (by decide),
   search_drop_policy_amended.2.1
      ⟨200, [], some ⟨some ⟨1, some [⟨some 6795, some ( "T".data), none, none⟩]⟩⟩⟩
      [⟨ "T".data, [], "6795".data⟩] _ (by decide) (by decide),
   search_drop_policy_amended.2.2
      ⟨200, [], some ⟨some [⟨some ( "m1".data), some ⟨some [( "en".data, "T".data)]⟩, none⟩],
        none⟩⟩
      [⟨ "T".data, [], "m1".data⟩] _ (by decide) (by decide)⟩

/-- C6 counterexample: the MangaDex `constructProxyUrl`, given a
non-empty user-agent option, appends no user-agent parameter — only the
WeebCentral and Webtoons variants honour all three options. -/
theorem mangadex_proxy_ignores_useragent_cex :
    MangaDex.constructProxyUrl ( "http://x/i.jpg".data) { userAgent := "UA".data } =
      "http://localhost:8080/api/proxy/resource?url=http%3A%2F%2Fx%2Fi.jpg".data ∧
    containsSub ( "user-agent=".data)
      (MangaDex.constructProxyUrl ( "http://x/i.jpg".data) { userAgent := "UA".data }) =
      false := by
  decide

/-- C6 amended: the WeebCentral and Webtoons `constructProxyUrl` return
the proxy base followed by the percent-encoded `url` parameter first and
then a `referer`, `user-agent` and `origin` parameter, in that order,
each exactly when the corresponding option is non-empty; the MangaDex
variant does the same but only ever supports the `referer` option. -/
theorem construct_proxy_url_spec :
    ∀ (url : Str) (options : ProxyOptions),
    (WeebCentral.constructProxyUrl url options =
      WeebCentral.PROXY_BASE_URL ++ ( "?".data) ++ ( "url=".data) ++
        encodeURIComponent url ++
        (if options.referer ≠ [] then
          '&' :: (( "referer=".data) ++ encodeURIComponent options.referer) else []) ++
        (if options.userAgent ≠ [] then
          '&' :: (( "user-agent=".data) ++ encodeURIComponent options.userAgent) else []) ++
        (if options.origin ≠ [] then
          '&' :: (( "origin=".data) ++ encodeURIComponent options.origin) else [])) ∧
    (Webtoons.constructProxyUrl url options =
      Webtoons.PROXY_BASE_URL ++ ( "?".data) ++ ( "url=".data) ++
        encodeURIComponent url ++
        (if options.referer ≠ [] then
          '&' :: (( "referer=".data) ++ encodeURIComponent options.referer) else []) ++
        (if options.userAgent ≠ [] then
          '&' :: (( "user-agent=".data) ++ encodeURIComponent options.userAgent) else []) ++
        (if options.origin ≠ [] then
          '&' :: (( "origin=".data) ++ encodeURIComponent options.origin) else [])) ∧
    (MangaDex.constructProxyUrl url options =
      MangaDex.PROXY_BASE_URL ++ ( "?".data) ++ ( "url=".data) ++
        encodeURIComponent url ++
        (if options.referer ≠ [] then
          '&' :: (( "referer=".data) ++ encodeURIComponent options.referer) else [])) := by
  intro url options
  refine ⟨?_, ?_, ?_⟩
  · unfold WeebCentral.constructProxyUrl
    by_cases h1 : options.referer = [] <;>
      by_cases h2 : options.userAgent = [] <;>
        by_cases h3 : options.origin = [] <;>
          simp [h1, h2, h3, joinAmp, List.append_assoc, List.cons_append,
            WeebCentral.PROXY_BASE_URL]
  · unfold Webtoons.constructProxyUrl
    by_cases h1 : options.referer = [] <;>
      by_cases h2 : options.userAgent = [] <;>
        by_cases h3 : options.origin = [] <;>
          simp [h1, h2, h3, joinAmp, List.append_assoc, List.cons_append,
            Webtoons.PROXY_BASE_URL]
  · unfold MangaDex.constructProxyUrl
    by_cases h1 : options.referer = [] <;>
      simp [h1, joinAmp, List.append_assoc, List.cons_append, MangaDex.PROXY_BASE_URL]

theorem jsReplaceFirst_append_case {pat : Str} (repl rest : Str) (h : pat ≠ []) :
    jsReplaceFirst pat repl (pat ++ rest) = repl ++ rest := by
  cases pat with
  | nil => exact absurd rfl h
  | cons p ps =>
    unfold jsReplaceFirst
    have hsf : splitFirst (p :: ps) ((p :: ps) ++ rest) = some ([], rest) := by
      show splitFirst (p :: ps) (p :: (ps ++ rest)) = some ([], rest)
      have hp : (p :: ps).isPrefixOf (p :: (ps ++ rest)) = true :=
        isPrefixOf_append_self (p :: ps) rest
      have hd : List.drop (p :: ps).length (p :: (ps ++ rest)) = rest :=
        List.drop_left (p :: ps) rest
      simp only [splitFirst]
      rw [if_pos hp, hd]
    rw [hsf]
    simp

theorem stripped_proxy_starts (X : Str) :
    ( "/api/proxy/resource?".data).isPrefixOf
      (jsReplaceFirst ( "http://localhost:8080".data) []
        (( "http://localhost:8080/api/proxy/resource".data) ++ ( "?".data) ++ X)) = true := by
  have h1 : ( "http://localhost:8080/api/proxy/resource".data) ++ ( "?".data) ++ X =
      ( "http://localhost:8080".data) ++ (( "/api/proxy/resource?".data) ++ X) := rfl
  rw [h1, jsReplaceFirst_append_case _ _ (by decide)]
  simp only [List.nil_append]
  exact isPrefixOf_append_self _ _

/-- C10: proxied cover URLs are host-relative: every cover URL returned
by MangaDex search is either empty or starts with
"/api/proxy/resource?", and every Webtoons cover URL is empty, starts
with that prefix, or was never proxied because it is not served from the
webtoon-phinf.pstatic.net CDN. -/
theorem cover_url_host_relative :
    (∀ (resp : HttpResponse (Option MangaDex.SearchBody)) (l : List SearchResult)
      (r : SearchResult), MangaDex.search resp = .ok l → r ∈ l →
      r.cover_url = [] ∨
        ( "/api/proxy/resource?".data).isPrefixOf r.cover_url = true) ∧
    (∀ (resp : HttpResponse (Option Webtoons.SearchPayload)) (l : List SearchResult)
      (r : SearchResult), Webtoons.search resp = .ok l → r ∈ l →
      r.cover_url = [] ∨
        ( "/api/proxy/resource?".data).isPrefixOf r.cover_url = true ∨
        containsSub ( "webtoon-phinf.pstatic.net".data) r.cover_url = false) := by
  constructor
  · intro resp l r h hr
    by_cases hst : resp.status = 200
    case neg => simp [MangaDex.search, hst] at h
    cases hdata : resp.data with
    | none =>
      simp [MangaDex.search, hst, hdata] at h
      subst h
      simp at hr
    | some body =>
      cases hds : body.data with
      | none =>
        simp [MangaDex.search, hst, hdata, hds] at h
        subst h
        simp at hr
      | some ds =>
        by_cases hnil : ds = []
        · simp [MangaDex.search, hst, hdata, hds, hnil] at h
          subst h
          simp at hr
        · simp [MangaDex.search, hst, hdata, hds, hnil] at h
          subst h
          obtain ⟨m, _hmem, hentry⟩ := List.mem_map.mp hr
          subst hentry
          simp only [MangaDex.searchEntry]
          split
          · right
            exact stripped_proxy_starts _
          · left
            rfl
  · intro resp l r h hr
    by_cases hst : resp.status = 200
    case neg => simp [Webtoons.search, hst] at h
    cases hdata : resp.data with
    | none => simp [Webtoons.search, hst, hdata] at h
    | some payload =>
      cases hres : payload.result with
      | none =>
        simp [Webtoons.search, hst, hdata, hres] at h
        subst h
        simp at hr
      | some block =>
        by_cases htot : block.total = 0
        · simp [Webtoons.search, hst, hdata, hres, htot] at h
          subst h
          simp at hr
        · simp [Webtoons.search, hst, hdata, hres, htot] at h
          subst h
          obtain ⟨item, _hitem, hentry⟩ := List.mem_map.mp hr
          subst hentry
          simp only [Webtoons.searchEntry, Webtoons.finalCoverUrl]
          split
          · right
            left
            exact stripped_proxy_starts _
          · rename_i hcond
            rw [Classical.not_and_iff_or_not_not] at hcond
            rcases hcond with hcond | hcond
            · left
              simpa using hcond
            · right
              right
              simpa using hcond

/-- C10 witness: the host-relative cover URL property at one concrete
search response per adapter. -/
theorem cover_url_host_relative_witness :
    ((MangaDex.searchEntry (MangaDex.buildCoverArtMap []) ⟨some ( "m1".data), some ⟨some [( "en".data, "T".data)]⟩, some [⟨some ( "cover_art".data), some ( "r1".data), some ⟨some ( "f1.jpg".data), none⟩⟩]⟩).cover_url = [] ∨
      ( "/api/proxy/resource?".data).isPrefixOf
        (MangaDex.searchEntry (MangaDex.buildCoverArtMap []) ⟨some ( "m1".data), some ⟨some [( "en".data, "T".data)]⟩, some [⟨some ( "cover_art".data), some ( "r1".data), some ⟨some ( "f1.jpg".data), none⟩⟩]⟩).cover_url = true) ∧
    ((Webtoons.searchEntry ⟨some 6795, some ( "T".data), some ( "/thumb/a.jpg".data), none⟩).cover_url = [] ∨
      ( "/api/proxy/resource?".data).isPrefixOf
        (Webtoons.searchEntry ⟨some 6795, some ( "T".data), some ( "/thumb/a.jpg".data), none⟩).cover_url = true ∨
      containsSub ( "webtoon-phinf.pstatic.net".data)
        (Webtoons.searchEntry ⟨some 6795, some ( "T".data), some ( "/thumb/a.jpg".data), none⟩).cover_url = false) :=
  ⟨cover_url_host_relative.1
      ⟨200, [], some ⟨some [⟨some ( "m1".data), some ⟨some [( "en".data, "T".data)]⟩, some [⟨some ( "cover_art".data), some ( "r1".data), some ⟨some ( "f1.jpg".data), none⟩⟩]⟩], none⟩⟩
      [MangaDex.searchEntry (MangaDex.buildCoverArtMap []) ⟨some ( "m1".data), some ⟨some [( "en".data, "T".data)]⟩, some [⟨some ( "cover_art".data), some ( "r1".data), some ⟨some ( "f1.jpg".data), none⟩⟩]⟩] _
      (by decide) (by decide),
   cover_url_host_relative.2
      ⟨200, [], some ⟨some ⟨1, some [⟨some 6795, some ( "T".data), some ( "/thumb/a.jpg".data), none⟩]⟩⟩⟩
      [Webtoons.searchEntry ⟨some 6795, some ( "T".data), some ( "/thumb/a.jpg".data), none⟩] _ (by decide) (by decide)⟩

/-- C2 counterexample: encoding series id 1, viewer link "a-b" and
episode 2, then decoding, yields viewer link "a_b" — the global
hyphen-to-underscore substitution is never undone, so the original viewer
link is not recovered. -/
theorem webtoons_codec_hyphen_cex :
    Webtoons.decodeChapterId
        (Webtoons.encodeChapterId ( "1".data) ( "a-b".data) ( "2".data)) =
      some ( "1".data, "a_b".data, "2".data) ∧
    ( "a_b".data) ≠ ( "a-b".data) := by
  decide

/-- C2 witness: the amended round trip at a concrete Webtoons viewer
link with slashes and query parameters. -/
theorem webtoons_codec_roundtrip_amended_witness :
    Webtoons.decodeChapterId (Webtoons.encodeChapterId ( "6795".data)
        ( "/en/canvas/x?title_no=6795&episode_no=2".data) ( "2".data)) =
      some ( "6795".data,
        dashToUnderscore ( "/en/canvas/x?title_no=6795&episode_no=2".data),
        dashToUnderscore ( "2".data)) :=
  webtoons_codec_roundtrip_amended ( "6795".data)
    ( "/en/canvas/x?title_no=6795&episode_no=2".data) ( "2".data)
    (by decide) (by decide) (by decide) (by decide) (by decide)
